import Mathlib

/-!
# EvenSmartThings — verification of the pagination / ordering / gesture core

Shallow embedding of the TypeScript sources of the EvenSmartThings widget:

* `src/state/constants.ts` — layout constants,
* `src/state/selectors.ts` — ordering, display names, index mapping,
* `src/render/composer.ts` — per-screen visible label lists,
* `src/state/reducer.ts` — the `(state, action) → state` reducer,
* `src/input/actions.ts` — the raw-event → action mapper,
* `src/app.ts` — gesture accumulation / scroll suppression and the
  tap-commit dispatch.

Machine integers of the source are modelled as `Nat`/`Int` (all quantities
involved stay far below 2^53, where JS numbers are exact), strings as Lean
`String` (one `Char` per reported JS character), and the external
`Intl`-collator comparison (`localeCompare` with base sensitivity) as a
case-insensitive comparison that is kept abstract where a claim does not
depend on its exact values.
-/

set_option maxHeartbeats 1600000

namespace EvenST

/-! ## Constants (src/state/constants.ts) -/

/-- SDK list container hard limit: 1–20 items. -/
def LIST_MAX_ITEMS : Nat := 20

/-- `SCENES_PER_PAGE = LIST_MAX_ITEMS - 2` (two slots reserved for
Back/Previous and Next). -/
def SCENES_PER_PAGE : Nat := LIST_MAX_ITEMS - 2

def DEVICES_PER_PAGE : Nat := SCENES_PER_PAGE

def ROOMS_PER_PAGE : Nat := SCENES_PER_PAGE

/-- Dim levels 0–100 in steps of 10 (11 values). -/
def DIM_LEVELS : List Nat := [0, 10, 20, 30, 40, 50, 60, 70, 80, 90, 100]

def DIM_LEVELS_PER_PAGE : Nat := SCENES_PER_PAGE

/-- Max characters per list item name (SDK limit). -/
def LIST_ITEM_NAME_MAX_LEN : Nat := 64

/-! ## Control labels (src/render/composer.ts) -/

def LABEL_PREVIOUS : String := "← Previous"

def LABEL_BACK : String := "← Back"

def LABEL_NEXT : String := "Next →"

def LABEL_ALL : String := "All"

/-! ## Locale comparison

`(a ?? '').localeCompare(b ?? '', undefined, { sensitivity: 'base' })` is a
call into the host `Intl` collator.  We model it as a case-insensitive
comparison; every theorem below that touches ordering either holds for any
comparator or only uses length/permutation facts that do not depend on it. -/

/-- Character-list implementations of the string primitives the source
uses (`trim`, `toLowerCase`, `slice`); structurally recursive so that
concrete witnesses evaluate inside the kernel. -/
def strTrim (s : String) : String :=
  ⟨((s.data.dropWhile Char.isWhitespace).reverse.dropWhile Char.isWhitespace).reverse⟩

def strToLower (s : String) : String :=
  ⟨s.data.map Char.toLower⟩

def strTake (s : String) (n : Nat) : String :=
  ⟨s.data.take n⟩

def localeCmp (a b : String) : Ordering :=
  if strToLower a < strToLower b then .lt
  else if strToLower b < strToLower a then .gt
  else .eq

/-- Stable comparison-based sort modelling `Array.prototype.sort(cmp)`
(stable per ES2019): insertion sort inserting each element after the
elements that do not compare strictly greater than it. -/
def insertByCmp {T : Type} (cmp : T → T → Ordering) (x : T) : List T → List T
  | [] => [x]
  | y :: ys => if cmp x y = .lt then x :: y :: ys else y :: insertByCmp cmp x ys

def sortByCmp {T : Type} (cmp : T → T → Ordering) : List T → List T
  | [] => []
  | x :: xs => insertByCmp cmp x (sortByCmp cmp xs)

/-! ## Entities (src/state/contracts.ts) -/

structure SceneEntry where
  sceneId : String
  sceneName : String
  deriving DecidableEq, Repr

structure RoomEntry where
  roomId : String
  roomName : String
  deriving DecidableEq, Repr

structure DeviceEntry where
  deviceId : String
  deviceName : String
  deviceType : Option String := none
  deviceProtocol : Option String := none
  supportsSwitch : Bool := false
  supportsDimmer : Bool := false
  deriving DecidableEq, Repr

inductive ListView where
  | main | scenes | rooms | devices | deviceDetail | deviceDim
  | roomAllDetail | roomAllDim | favorites
  deriving DecidableEq, Repr

inductive ListOrderPreference where
  | alphabetical | reverse | custom
  deriving DecidableEq, Repr

inductive MainMenuItem where
  | scenes | devices | favorites
  deriving DecidableEq, Repr

structure FavoriteRef where
  /-- `type` field: `true` for a scene reference, `false` for a device. -/
  isScene : Bool
  id : String
  deriving DecidableEq, Repr

structure ListOrderPrefs where
  scenes : ListOrderPreference := .alphabetical
  rooms : ListOrderPreference := .alphabetical
  devices : ListOrderPreference := .alphabetical
  favorites : ListOrderPreference := .alphabetical
  main : ListOrderPreference := .alphabetical
  deriving DecidableEq, Repr

structure ListOrderCustomIds where
  scenes : List String := []
  rooms : List String := []
  devices : List String := []
  favorites : List String := []
  main : List MainMenuItem := [.scenes, .devices, .favorites]
  deriving DecidableEq, Repr

structure Preferences where
  listOrder : ListOrderPrefs := {}
  listOrderCustomIds : ListOrderCustomIds := {}
  favoritesIds : List FavoriteRef := []
  /-- `renames`: entity id → display name, as an association list
  (first match wins; the JS object has unique keys). -/
  renames : List (String × String) := []
  deriving DecidableEq, Repr

inductive AppStatus where
  | loading | ready | executing | done | error
  deriving DecidableEq, Repr

inductive FetchStatus where
  | idle | loading | ready | error
  deriving DecidableEq, Repr

structure GlobalStats where
  total : Int
  online : Int
  offline : Int
  deriving DecidableEq, Repr

structure DeviceStats where
  onlineStatus : String
  switchStatus : String
  brightness : Option Int := none
  capabilityReadings : List (String × String) := []
  deriving DecidableEq, Repr

/-- contracts.ts:141-169 (the stats-visibility preferences, which only
configure the stats side panel, are not modelled — no claim involves the
stats panel). -/
structure AppState where
  listView : ListView := .main
  scenes : List SceneEntry := []
  listPageIndex : Nat := 0
  status : AppStatus := .loading
  errorMessage : Option String := none
  rooms : List RoomEntry := []
  roomsStatus : FetchStatus := .idle
  selectedRoomId : Option String := none
  devices : List DeviceEntry := []
  devicesStatus : FetchStatus := .idle
  selectedDeviceId : Option String := none
  globalStats : Option GlobalStats := none
  roomStats : Option GlobalStats := none
  deviceStats : Option DeviceStats := none
  focusedListIndex : Int := 0
  preferences : Preferences := {}
  allDevices : List DeviceEntry := []
  deriving DecidableEq, Repr

/-! ## Display names and truncation

`truncateName` (src/render/composer.ts:64-67) and `getDisplayName`
(src/state/selectors.ts:9-18). -/

/-- `name || fallback` of JS: an empty string is falsy. -/
def strOr (name fallback : String) : String :=
  if name = "" then fallback else name

/-- composer.ts:64-67. -/
def truncateName (name : String) (fallback : String := "Scene") : String :=
  let n := strOr name fallback
  if n.length ≤ LIST_ITEM_NAME_MAX_LEN then n
  else strTake n (LIST_ITEM_NAME_MAX_LEN - 1) ++ "…"

/-- `state.preferences.renames[id] ?? fallback`. -/
def renameLookup (renames : List (String × String)) (id : String) : Option String :=
  (renames.find? (fun p => p.1 = id)).map (·.2)

/-- selectors.ts:9-18. -/
def getDisplayName (state : AppState) (id : String) (fallback : String) : String :=
  let name := (renameLookup state.preferences.renames id).getD fallback
  let n := strOr (strTrim (strOr name fallback)) fallback
  if n.length ≤ LIST_ITEM_NAME_MAX_LEN then n
  else strTake n (LIST_ITEM_NAME_MAX_LEN - 1) ++ "…"

/-! ## Ordering resolver (src/state/selectors.ts:20-53, `applyOrder`)

A JS `Map` built by `new Map(pairs)` keeps insertion order and, on a
duplicate key, overwrites the earlier value in place.  It is modelled as an
association list with those exact semantics. -/

/-- `Map.prototype.set` semantics: update in place if the key exists,
append otherwise. -/
def mapSet {T : Type} (m : List (String × T)) (k : String) (v : T) :
    List (String × T) :=
  if m.any (fun p => p.1 = k) then
    m.map (fun p => if p.1 = k then (k, v) else p)
  else m ++ [(k, v)]

/-- `new Map(items.map((item) => [getKey(item), item]))`. -/
def mapFromItems {T : Type} (getKey : T → String) (items : List T) :
    List (String × T) :=
  items.foldl (fun m it => mapSet m (getKey it) it) []

/-- `Map.prototype.get`. -/
def mapGet {T : Type} (m : List (String × T)) (k : String) : Option T :=
  (m.find? (fun p => p.1 = k)).map (·.2)

/-- `Map.prototype.delete` (under unique keys, which `mapFromItems`
guarantees, removing every pair with the key removes exactly the one
entry). -/
def mapDelete {T : Type} (m : List (String × T)) (k : String) :
    List (String × T) :=
  m.filter (fun p => ¬ p.1 = k)

/-- The `for (const id of customIds)` loop of `applyOrder`: emit each entity
found in the map exactly once, deleting it so later duplicates in
`customIds` find nothing. -/
def pickLoop {T : Type} : List String → List (String × T) →
    List T × List (String × T)
  | [], m => ([], m)
  | id :: ids, m =>
    match mapGet m id with
    | some item =>
      let r := pickLoop ids (mapDelete m id)
      (item :: r.1, r.2)
    | none => pickLoop ids m

/-- Name comparator used throughout `applyOrder`:
`(getName a) ?? ''` is never null here, so it is `localeCmp` on names. -/
def nameCmp {T : Type} (getName : T → String) (a b : T) : Ordering :=
  localeCmp (getName a) (getName b)

/-- selectors.ts:20-53. -/
def applyOrder {T : Type} (items : List T) (getKey getName : T → String)
    (preference : ListOrderPreference) (customIds : List String) : List T :=
  match preference with
  | .alphabetical => sortByCmp (nameCmp getName) items
  | .reverse => (sortByCmp (nameCmp getName) items).reverse
  | .custom =>
    let r := pickLoop customIds (mapFromItems getKey items)
    r.1 ++ sortByCmp (nameCmp getName) (r.2.map (·.2))

/-! ## Ordered selectors (src/state/selectors.ts:55-168) -/

def getOrderedScenes (st : AppState) : List SceneEntry :=
  applyOrder st.scenes (·.sceneId) (·.sceneName)
    st.preferences.listOrder.scenes st.preferences.listOrderCustomIds.scenes

def getOrderedRooms (st : AppState) : List RoomEntry :=
  applyOrder st.rooms (·.roomId) (·.roomName)
    st.preferences.listOrder.rooms st.preferences.listOrderCustomIds.rooms

def getOrderedDevices (st : AppState) : List DeviceEntry :=
  applyOrder st.devices (·.deviceId) (·.deviceName)
    st.preferences.listOrder.devices st.preferences.listOrderCustomIds.devices

/-- `new Map(pairs)` from an explicit pair list (selectors.ts:99-103). -/
def mapFromPairs {T : Type} (pairs : List (String × T)) : List (String × T) :=
  pairs.foldl (fun m p => mapSet m p.1 p.2) []

def scenesById (st : AppState) : List (String × SceneEntry) :=
  mapFromPairs (st.scenes.map (fun s => (s.sceneId, s)))

/-- `devicesById`: `allDevices` entries first, then current `devices`
(later pairs overwrite earlier ones). -/
def favDevicesById (st : AppState) : List (String × DeviceEntry) :=
  mapFromPairs ((st.allDevices ++ st.devices).map (fun d => (d.deviceId, d)))

/-- Sort key of a favorite reference (selectors.ts:106-124):
rename, else kind-specific name lookup, else `''`. -/
def favSortName (st : AppState) (r : FavoriteRef) : String :=
  match renameLookup st.preferences.renames r.id with
  | some n => n
  | none =>
    if r.isScene then ((mapGet (scenesById st) r.id).map (·.sceneName)).getD ""
    else ((mapGet (favDevicesById st) r.id).map (·.deviceName)).getD ""

structure FavoriteItem where
  isScene : Bool
  id : String
  displayName : String
  device : Option DeviceEntry := none
  scene : Option SceneEntry := none
  deriving DecidableEq, Repr

/-- selectors.ts:97-140. -/
def getOrderedFavorites (st : AppState) : List FavoriteItem :=
  let items :=
    match st.preferences.listOrder.favorites with
    | .alphabetical =>
      sortByCmp (fun a b => localeCmp (favSortName st a) (favSortName st b))
        st.preferences.favoritesIds
    | .reverse =>
      sortByCmp (fun a b => localeCmp (favSortName st b) (favSortName st a))
        st.preferences.favoritesIds
    | .custom => st.preferences.favoritesIds
  items.map (fun r =>
    if r.isScene then
      let scene := mapGet (scenesById st) r.id
      { isScene := true, id := r.id,
        displayName := getDisplayName st r.id ((scene.map (·.sceneName)).getD "Scene"),
        scene := scene }
    else
      let device := mapGet (favDevicesById st) r.id
      { isScene := false, id := r.id,
        displayName := getDisplayName st r.id ((device.map (·.deviceName)).getD "Device"),
        device := device })

def MAIN_MENU_ITEMS : List MainMenuItem := [.scenes, .devices, .favorites]

def mainMenuLabel : MainMenuItem → String
  | .scenes => "Scenes"
  | .devices => "Devices"
  | .favorites => "Favorites"

/-- selectors.ts:146-162. -/
def getMainMenuOrderedItems (st : AppState) : List MainMenuItem :=
  let hasFavorites := st.preferences.favoritesIds.length > 0
  let items :=
    match st.preferences.listOrder.main with
    | .alphabetical =>
      sortByCmp (fun a b => localeCmp (mainMenuLabel a) (mainMenuLabel b))
        MAIN_MENU_ITEMS
    | .reverse =>
      sortByCmp (fun a b => localeCmp (mainMenuLabel b) (mainMenuLabel a))
        MAIN_MENU_ITEMS
    | .custom =>
      if st.preferences.listOrderCustomIds.main.length > 0 then
        st.preferences.listOrderCustomIds.main
      else MAIN_MENU_ITEMS
  if hasFavorites then items else items.filter (fun x => ¬ x = .favorites)

/-- `!id` in JS treats the empty string as falsy (selectors.ts:190-194). -/
def getSelectedRoom (st : AppState) : Option RoomEntry :=
  match st.selectedRoomId with
  | none => none
  | some id => if id = "" then none else st.rooms.find? (fun r => r.roomId = id)

/-- selectors.ts:196-200. -/
def getSelectedDevice (st : AppState) : Option DeviceEntry :=
  match st.selectedDeviceId with
  | none => none
  | some id => if id = "" then none else st.devices.find? (fun d => d.deviceId = id)

def roomHasDimmable (st : AppState) : Bool :=
  st.devices.any (·.supportsDimmer)

def roomHasSwitchable (st : AppState) : Bool :=
  st.devices.any (·.supportsSwitch)

/-! ## Page composer (src/render/composer.ts:202-410)

The scenes (211-233), rooms (246-269) and favorites (369-388) views all run
the identical pagination computation on their respective name lists;
`pagedLabels` is that shared computation (the source maps entity → name
after slicing, which commutes with slicing).  `Math.ceil(a / b)` on
non-negative integers is `(a + b - 1) / b` in `Nat`. -/

def pagedLabels (perPage : Nat) (names : List String) (listPageIndex : Nat) :
    List String :=
  let len := names.length
  let firstPageSlots := if len ≤ perPage then perPage else perPage - 1
  let totalPages :=
    if len ≤ perPage then 1
    else 1 + ((len - firstPageSlots) + perPage - 1) / perPage
  let page := min listPageIndex (totalPages - 1)
  let isFirst := page = 0
  let isLast := page = totalPages - 1
  let contentSlots := if isFirst then firstPageSlots else perPage
  let startIndex := if page = 0 then 0 else firstPageSlots + (page - 1) * perPage
  let pageNames := (names.drop startIndex).take contentSlots
  let padding :=
    if isFirst ∧ isLast then []
    else List.replicate (contentSlots - pageNames.length) ""
  let part := pageNames ++ padding
  let prevLabel := if isFirst then LABEL_BACK else LABEL_PREVIOUS
  if isFirst ∧ isLast then prevLabel :: part
  else if isFirst then prevLabel :: (part ++ [LABEL_NEXT])
  else if isLast then prevLabel :: part
  else prevLabel :: (part ++ [LABEL_NEXT])

def sceneLabel (st : AppState) (s : SceneEntry) : String :=
  truncateName (getDisplayName st s.sceneId s.sceneName)

/-- composer.ts:203-234. -/
def sceneNamesForListView (st : AppState) : List String :=
  let scenes := getOrderedScenes st
  if scenes.length = 0 then
    if st.status = .loading then [] else ["No scenes"]
  else pagedLabels SCENES_PER_PAGE (scenes.map (sceneLabel st)) st.listPageIndex

def roomLabel (st : AppState) (r : RoomEntry) : String :=
  truncateName (getDisplayName st r.roomId r.roomName) "Room"

/-- composer.ts:237-270. -/
def roomNamesForListView (st : AppState) : List String :=
  let rooms := getOrderedRooms st
  if rooms.length = 0 then
    if st.roomsStatus = .loading then ["Loading…"]
    else if st.roomsStatus = .error then ["Failed to load rooms"]
    else ["No rooms"]
  else pagedLabels ROOMS_PER_PAGE (rooms.map (roomLabel st)) st.listPageIndex

/-- composer.ts:364-389. -/
def favoriteNamesForListView (st : AppState) : List String :=
  let favorites := getOrderedFavorites st
  if favorites.length = 0 then [LABEL_BACK, "No favorites"]
  else
    pagedLabels SCENES_PER_PAGE
      (favorites.map (fun f => truncateName f.displayName)) st.listPageIndex

def deviceLabel (st : AppState) (d : DeviceEntry) : String :=
  truncateName (getDisplayName st d.deviceId d.deviceName) "Device"

/-- composer.ts:275-321: the devices view injects the synthetic `All`
entry after Back on page 0. -/
def deviceNamesForListView (st : AppState) : List String :=
  let devices := getOrderedDevices st
  if devices.length = 0 then
    if st.devicesStatus = .loading then [LABEL_BACK, "Loading…"]
    else if st.devicesStatus = .error then [LABEL_BACK, "Failed to load devices"]
    else [LABEL_BACK, "No devices"]
  else
    let totalContentItems := 1 + devices.length
    let needNext := DEVICES_PER_PAGE - 1 < totalContentItems
    let firstPageContentSlots :=
      if needNext then DEVICES_PER_PAGE - 1 else totalContentItems
    let firstPageDeviceCount :=
      firstPageContentSlots - 1 - (if needNext then 1 else 0)
    let totalPages :=
      if needNext then
        1 + ((devices.length - firstPageDeviceCount) + (DEVICES_PER_PAGE - 1) - 1) /
          (DEVICES_PER_PAGE - 1)
      else 1
    let page := min st.listPageIndex (max 0 (totalPages - 1))
    let isFirst := page = 0
    let isLast := page = totalPages - 1
    if isFirst then
      let deviceNames := (devices.take firstPageDeviceCount).map (deviceLabel st)
      let contentPart := LABEL_ALL :: deviceNames
      let padding :=
        if isLast then []
        else List.replicate (firstPageContentSlots - contentPart.length) ""
      let part := contentPart ++ padding
      if isLast then LABEL_BACK :: part
      else LABEL_BACK :: (part ++ [LABEL_NEXT])
    else
      let startIndex := firstPageDeviceCount + (page - 1) * (DEVICES_PER_PAGE - 1)
      let contentSlots :=
        if isLast ∧ devices.length - startIndex < DEVICES_PER_PAGE - 1 then
          devices.length - startIndex
        else DEVICES_PER_PAGE - 1
      let deviceNames := ((devices.drop startIndex).take contentSlots).map (deviceLabel st)
      let padding := List.replicate (contentSlots - deviceNames.length) ""
      LABEL_PREVIOUS :: ((deviceNames ++ padding) ++ if isLast then [] else [LABEL_NEXT])

/-- composer.ts:324-328. -/
def deviceDetailItemNames (st : AppState) : List String :=
  let device := getSelectedDevice st
  let base :=
    if (device.map (·.supportsSwitch)).getD false then [LABEL_BACK, "On", "Off"]
    else [LABEL_BACK]
  if (device.map (·.supportsDimmer)).getD false then base ++ ["Dim"] else base

/-- composer.ts:331-334. -/
def roomAllDetailItemNames (st : AppState) : List String :=
  let base :=
    if roomHasSwitchable st then [LABEL_BACK, "On", "Off"] else [LABEL_BACK]
  if roomHasDimmable st then base ++ ["Dim"] else base

/-- composer.ts:337-362 (page is not clamped here). -/
def dimLevelItemNames (st : AppState) : List String :=
  let page := st.listPageIndex
  let totalLevels := DIM_LEVELS.length
  let firstPageSlots := DIM_LEVELS_PER_PAGE
  let totalPages :=
    if totalLevels ≤ firstPageSlots then 1
    else 1 + ((totalLevels - firstPageSlots) + DIM_LEVELS_PER_PAGE - 1) /
      DIM_LEVELS_PER_PAGE
  let isFirst := page = 0
  let isLast := page = totalPages - 1
  let startIndex := if page = 0 then 0 else firstPageSlots + (page - 1) * DIM_LEVELS_PER_PAGE
  let contentSlots :=
    if isFirst then firstPageSlots
    else if page = totalPages - 1 then
      totalLevels - firstPageSlots - (totalPages - 2) * DIM_LEVELS_PER_PAGE
    else DIM_LEVELS_PER_PAGE - 1
  let levelNames := ((DIM_LEVELS.drop startIndex).take contentSlots).map toString
  let padding :=
    if isFirst ∧ isLast then []
    else List.replicate (contentSlots - levelNames.length) ""
  let part := levelNames ++ padding
  let prevLabel := if isFirst then LABEL_BACK else LABEL_PREVIOUS
  if isFirst ∧ isLast then prevLabel :: part
  else if isFirst then prevLabel :: (part ++ [LABEL_NEXT])
  else if isLast then prevLabel :: part
  else prevLabel :: (part ++ [LABEL_NEXT])

/-- composer.ts:398-410. -/
def listItemNamesForState (st : AppState) : List String :=
  match st.listView with
  | .main => (getMainMenuOrderedItems st).map mainMenuLabel
  | .scenes => sceneNamesForListView st
  | .rooms => roomNamesForListView st
  | .favorites => favoriteNamesForListView st
  | .deviceDetail => deviceDetailItemNames st
  | .deviceDim => dimLevelItemNames st
  | .roomAllDetail => roomAllDetailItemNames st
  | .roomAllDim => dimLevelItemNames st
  | .devices => deviceNamesForListView st

/-- composer.ts:437-440. -/
def getLastListIndex (st : AppState) : Nat :=
  max 0 ((listItemNamesForState st).length - 1)

/-- composer.ts:443-483. -/
def getTotalPages (st : AppState) : Nat :=
  match st.listView with
  | .main => 1
  | .favorites =>
    let n := (getOrderedFavorites st).length
    if n = 0 then 1
    else
      let first := if n ≤ SCENES_PER_PAGE then SCENES_PER_PAGE else SCENES_PER_PAGE - 1
      if n ≤ SCENES_PER_PAGE then 1
      else 1 + ((n - first) + SCENES_PER_PAGE - 1) / SCENES_PER_PAGE
  | .deviceDetail => 1
  | .roomAllDetail => 1
  | .deviceDim =>
    if DIM_LEVELS.length ≤ DIM_LEVELS_PER_PAGE then 1
    else 1 + ((DIM_LEVELS.length - DIM_LEVELS_PER_PAGE) + DIM_LEVELS_PER_PAGE - 1) /
      DIM_LEVELS_PER_PAGE
  | .roomAllDim =>
    if DIM_LEVELS.length ≤ DIM_LEVELS_PER_PAGE then 1
    else 1 + ((DIM_LEVELS.length - DIM_LEVELS_PER_PAGE) + DIM_LEVELS_PER_PAGE - 1) /
      DIM_LEVELS_PER_PAGE
  | .scenes =>
    let n := (getOrderedScenes st).length
    if n = 0 then 1
    else
      let first := if n ≤ SCENES_PER_PAGE then SCENES_PER_PAGE else SCENES_PER_PAGE - 1
      if n ≤ SCENES_PER_PAGE then 1
      else 1 + ((n - first) + SCENES_PER_PAGE - 1) / SCENES_PER_PAGE
  | .rooms =>
    let n := (getOrderedRooms st).length
    if n = 0 then 1
    else
      let first := if n ≤ ROOMS_PER_PAGE then ROOMS_PER_PAGE else ROOMS_PER_PAGE - 1
      if n ≤ ROOMS_PER_PAGE then 1
      else 1 + ((n - first) + ROOMS_PER_PAGE - 1) / ROOMS_PER_PAGE
  | .devices =>
    let n := (getOrderedDevices st).length
    if n = 0 then 1
    else
      let needNext := DEVICES_PER_PAGE - 1 < 1 + n
      let firstPageDeviceCount := if needNext then DEVICES_PER_PAGE - 1 - 1 - 1 else n
      if needNext then
        1 + ((n - firstPageDeviceCount) + (DEVICES_PER_PAGE - 1) - 1) / (DEVICES_PER_PAGE - 1)
      else 1

/-- composer.ts:486-511 (raw collection lengths for scenes/rooms/devices). -/
def getFirstPageContentSlots (st : AppState) : Nat :=
  match st.listView with
  | .main => (getMainMenuOrderedItems st).length
  | .favorites =>
    let n := (getOrderedFavorites st).length
    if n ≤ SCENES_PER_PAGE then SCENES_PER_PAGE else SCENES_PER_PAGE - 1
  | .deviceDetail => (deviceDetailItemNames st).length - 1
  | .roomAllDetail => (roomAllDetailItemNames st).length - 1
  | .deviceDim => DIM_LEVELS_PER_PAGE
  | .roomAllDim => DIM_LEVELS_PER_PAGE
  | .scenes =>
    let n := st.scenes.length
    if n ≤ SCENES_PER_PAGE then SCENES_PER_PAGE else SCENES_PER_PAGE - 1
  | .rooms =>
    let n := st.rooms.length
    if n ≤ ROOMS_PER_PAGE then ROOMS_PER_PAGE else ROOMS_PER_PAGE - 1
  | .devices =>
    let n := st.devices.length
    if n = 0 then 1
    else if DEVICES_PER_PAGE - 1 < 1 + n then DEVICES_PER_PAGE - 1 else 1 + n

/-! ## Index mapping (src/state/selectors.ts:217-250, src/app.ts:1367-1431) -/

/-- selectors.ts:217-237: for the devices view, `-1` means the `All` slot,
`-2` a structural slot. -/
def getDeviceIndexFromDevicesList (st : AppState) (page : Nat)
    (listIndex : Int) : Int :=
  let devices := getOrderedDevices st
  let totalContentItems := 1 + devices.length
  let needNext := DEVICES_PER_PAGE - 1 < totalContentItems
  let firstPageContentSlots :=
    if needNext then DEVICES_PER_PAGE - 1 else totalContentItems
  let firstPageDeviceCount :=
    firstPageContentSlots - 1 - (if needNext then 1 else 0)
  if page = 0 then
    if listIndex = 1 then -1
    else if listIndex ≤ 0 then -2
    else
      let deviceIndex := listIndex - 2
      if 0 ≤ deviceIndex ∧ deviceIndex < (firstPageDeviceCount : Int) then deviceIndex
      else -2
  else
    let startIndex := firstPageDeviceCount + (page - 1) * (DEVICES_PER_PAGE - 1)
    let deviceIndex := (startIndex : Int) + (listIndex - 1)
    if 0 ≤ deviceIndex ∧ deviceIndex < (devices.length : Int) then deviceIndex
    else -2

/-- Content index recovery in `commitTap` for the scenes view
(app.ts:1367-1369). -/
def commitTapSceneIndex (st : AppState) (page : Nat) (listIndex : Int) : Int :=
  if page = 0 then listIndex - 1
  else (getFirstPageContentSlots st : Int) + ((page : Int) - 1) * (SCENES_PER_PAGE : Int)
    + (listIndex - 1)

/-- Content index recovery in `commitTap` for the favorites view
(app.ts:1393-1395). -/
def commitTapFavoriteIndex (st : AppState) (page : Nat) (listIndex : Int) : Int :=
  if page = 0 then listIndex - 1
  else (getFirstPageContentSlots st : Int) + ((page : Int) - 1) * (SCENES_PER_PAGE : Int)
    + (listIndex - 1)

/-- Content index recovery in `commitTap` for the rooms view
(app.ts:1429-1431). -/
def commitTapRoomIndex (st : AppState) (page : Nat) (listIndex : Int) : Int :=
  if page = 0 then listIndex - 1
  else (getFirstPageContentSlots st : Int) + ((page : Int) - 1) * (ROOMS_PER_PAGE : Int)
    + (listIndex - 1)

/-! ## Placement: the page/slot at which the composer shows entity `i`.

Derived from the slice arithmetic of `pagedLabels` (shared by
scenes/rooms/favorites) and `deviceNamesForListView`; the claim theorems
prove that the composer indeed shows entity `i`'s label there. -/

def pagedFirstPageSlots (perPage n : Nat) : Nat :=
  if n ≤ perPage then perPage else perPage - 1

def pagedPlacementPage (perPage n i : Nat) : Nat :=
  if i < pagedFirstPageSlots perPage n then 0
  else 1 + (i - pagedFirstPageSlots perPage n) / perPage

def pagedPlacementSlot (perPage n i : Nat) : Nat :=
  if i < pagedFirstPageSlots perPage n then 1 + i
  else 1 + (i - pagedFirstPageSlots perPage n) % perPage

def devFirstPageDeviceCount (n : Nat) : Nat :=
  let needNext := DEVICES_PER_PAGE - 1 < 1 + n
  (if needNext then DEVICES_PER_PAGE - 1 else 1 + n) - 1 - (if needNext then 1 else 0)

def devicePlacementPage (n i : Nat) : Nat :=
  if i < devFirstPageDeviceCount n then 0
  else 1 + (i - devFirstPageDeviceCount n) / (DEVICES_PER_PAGE - 1)

def devicePlacementSlot (n i : Nat) : Nat :=
  if i < devFirstPageDeviceCount n then 2 + i
  else 1 + (i - devFirstPageDeviceCount n) % (DEVICES_PER_PAGE - 1)

/-! ## Batch outcome classification (src/app.ts:546-550) -/

/-- `ConfirmationResult`: the source's `'success' | 'partial' | 'failure'`;
the middle value is named `mixed` here. -/
inductive ConfirmationResult where
  | success | mixed | failure
  deriving DecidableEq, Repr

def confirmationResultFromCounts (successCount total : Nat) : ConfirmationResult :=
  if total = 0 ∨ successCount = 0 then .failure
  else if successCount = total then .success
  else .mixed

/-- Concrete collection of 25 devices (ids `"0"`–`"24"`). -/
def c1Devices : List DeviceEntry :=
  (List.range 25).map (fun i => { deviceId := toString i, deviceName := toString i })

/-- Devices screen showing the 25-device collection in explicit custom
order (so the ordered collection is `c1Devices` itself), page 0. -/
def c1State : AppState :=
  { listView := .devices,
    devices := c1Devices,
    devicesStatus := .ready,
    listPageIndex := 0,
    preferences :=
      { listOrder := { devices := .custom },
        listOrderCustomIds := { devices := (List.range 25).map toString } } }

/-! ## Actions and reducer (src/state/contracts.ts:171-197,
src/state/reducer.ts:8-211) -/

/-- The key of `Preferences.listOrder` a `SET_LIST_ORDER` action targets. -/
inductive ListKind where
  | scenes | rooms | devices | favorites | main
  deriving DecidableEq, Repr

inductive Action where
  | tap (selectedIndex : Int) (gestureTaps : Option Nat)
  | listPage (pageIndex : Nat)
  | navView (view : ListView)
  | navRoom (roomId : String)
  | navDevice (deviceId : String)
  | navFavoriteDevice (deviceId : String)
  | navRoomAll
  | scenesLoaded (scenes : List SceneEntry)
  | scenesError (message : String)
  | roomsLoading
  | roomsLoaded (rooms : List RoomEntry)
  | roomsError (message : String)
  | devicesLoading
  | devicesLoaded (devices : List DeviceEntry)
  | devicesError (message : String)
  | allDevicesLoaded (devices : List DeviceEntry)
  | executeStart
  | executeEnd (success : Bool) (errorMessage : Option String)
  | statsGlobal (stats : GlobalStats)
  | statsRoom (stats : Option GlobalStats)
  | statsDevice (stats : Option DeviceStats)
  | preferencesLoaded (preferences : Preferences)
  | setListOrder (list : ListKind) (preference : ListOrderPreference)
      (customIds : Option (List String ⊕ List MainMenuItem))
  | setFavorites (favoritesIds : List FavoriteRef)
  | setRenames (renames : List (String × String))
  deriving DecidableEq, Repr

/-- The keyed `listOrder` / `listOrderCustomIds` update of the
`SET_LIST_ORDER` reducer case (reducer.ts:157-170). -/
def applySetListOrder (prefs : Preferences) (list : ListKind)
    (preference : ListOrderPreference)
    (customIds : Option (List String ⊕ List MainMenuItem)) : Preferences :=
  let lo := prefs.listOrder
  let lo2 :=
    match list with
    | .scenes => { lo with scenes := preference }
    | .rooms => { lo with rooms := preference }
    | .devices => { lo with devices := preference }
    | .favorites => { lo with favorites := preference }
    | .main => { lo with main := preference }
  let ci := prefs.listOrderCustomIds
  let ci2 :=
    match customIds, list with
    | none, _ => ci
    | some (.inl ids), .scenes => { ci with scenes := ids }
    | some (.inl ids), .rooms => { ci with rooms := ids }
    | some (.inl ids), .devices => { ci with devices := ids }
    | some (.inl ids), .favorites => { ci with favorites := ids }
    | some (.inl _), .main => ci
    | some (.inr items), .main => { ci with main := items }
    | some (.inr _), _ => ci
  { prefs with listOrder := lo2, listOrderCustomIds := ci2 }

/-- reducer.ts:8-190.  The conditional object spreads of the `NAV_VIEW`
case are applied in source order (later spreads override earlier ones). -/
def reduce (state : AppState) (action : Action) : AppState :=
  match action with
  | .tap selectedIndex _ => { state with focusedListIndex := selectedIndex }
  | .listPage pageIndex => { state with listPageIndex := pageIndex }
  | .navView v =>
    let s1 := { state with listView := v, listPageIndex := 0, focusedListIndex := 0 }
    let s2 := if v = .rooms then { s1 with roomsStatus := .loading } else s1
    let s3 :=
      if v = .devices then { s2 with selectedDeviceId := none, deviceStats := none }
      else s2
    let s4 :=
      if v = .deviceDetail ∨ v = .deviceDim then s3
      else { s3 with selectedDeviceId := none, deviceStats := none }
    if v = .main ∨ v = .scenes ∨ v = .rooms ∨ v = .favorites then
      { s4 with roomStats := none }
    else s4
  | .navRoom roomId =>
    { state with
      listView := .devices
      listPageIndex := 0
      focusedListIndex := 0
      selectedRoomId := some roomId
      devicesStatus := .loading
      roomStats := none }
  | .navDevice deviceId =>
    { state with
      listView := .deviceDetail
      listPageIndex := 0
      focusedListIndex := 0
      selectedDeviceId := some deviceId }
  | .navFavoriteDevice deviceId =>
    { state with
      listView := .deviceDetail
      listPageIndex := 0
      focusedListIndex := 0
      selectedDeviceId := some deviceId
      selectedRoomId := none
      devices := state.allDevices }
  | .navRoomAll =>
    { state with
      listView := .roomAllDetail
      listPageIndex := 0
      focusedListIndex := 0
      selectedDeviceId := none }
  | .scenesLoaded scenes =>
    { state with
      scenes := sortByCmp (fun a b => localeCmp a.sceneName b.sceneName) scenes
      listPageIndex := 0
      status := .ready
      errorMessage := none }
  | .scenesError message =>
    { state with status := .error, errorMessage := some message }
  | .roomsLoading => { state with roomsStatus := .loading }
  | .roomsLoaded rooms =>
    { state with
      rooms := sortByCmp (fun a b => localeCmp a.roomName b.roomName) rooms
      roomsStatus := .ready
      listPageIndex := 0 }
  | .roomsError _ => { state with roomsStatus := .error }
  | .devicesLoading => { state with devicesStatus := .loading }
  | .devicesLoaded devices =>
    { state with
      devices := sortByCmp (fun a b => localeCmp a.deviceName b.deviceName) devices
      devicesStatus := .ready
      listPageIndex := 0 }
  | .devicesError _ => { state with devicesStatus := .error }
  | .allDevicesLoaded devices =>
    { state with
      allDevices := sortByCmp (fun a b => localeCmp a.deviceName b.deviceName) devices }
  | .executeStart => { state with status := .executing }
  | .executeEnd success errorMessage =>
    { state with
      status := if success then .done else .error
      errorMessage := errorMessage }
  | .statsGlobal stats => { state with globalStats := some stats }
  | .statsRoom stats => { state with roomStats := stats }
  | .statsDevice stats => { state with deviceStats := stats }
  | .preferencesLoaded preferences => { state with preferences := preferences }
  | .setListOrder list preference customIds =>
    { state with preferences :=
        applySetListOrder state.preferences list preference customIds }
  | .setFavorites favoritesIds =>
    { state with preferences := { state.preferences with favoritesIds := favoritesIds } }
  | .setRenames renames =>
    { state with preferences := { state.preferences with renames := renames } }

/-- reducer.ts:192-211. -/
def buildInitialState : AppState := {}

/-! ## Input mapper (src/input/actions.ts:8-52)

`OsEventTypeList` is an SDK numeric enum whose exact values are external;
the mapper is parametrised over them.  `fromJson(raw) ?? Number(raw)`
yields the raw number either way, so comparisons against enum members are
comparisons of the raw number against the member's code.  The double-tap
raw check compares against the literal 3. -/

structure OsEventCodes where
  click : Nat
  doubleClick : Nat
  scrollTop : Nat
  scrollBottom : Nat
  deriving DecidableEq, Repr

structure ListEventPayload where
  /-- `eventType` field, when it is present and numeric. -/
  eventType : Option Nat := none
  /-- `currentSelectItemIndex` field, when it is present and numeric. -/
  currentSelectItemIndex : Option Int := none
  deriving DecidableEq, Repr

structure EvenHubEvent where
  /-- `sysEvent`: `some t` when present with numeric `eventType` `t`
  (`some none` when present without one). -/
  sysEventType : Option (Option Nat) := none
  listEvent : Option ListEventPayload := none
  deriving DecidableEq, Repr

/-- The `event.listEvent` block of `mapEvenHubEvent` (actions.ts:22-46). -/
def mapListEvent (codes : OsEventCodes) (event : EvenHubEvent) : Option Action :=
  match event.listEvent with
  | none => none
  | some le =>
    let rawDoubleClick := le.eventType = some 3
    let eventType := le.eventType
    let index := le.currentSelectItemIndex.getD 0
    if rawDoubleClick ∨ eventType = some codes.doubleClick then
      some (.tap index (some 2))
    else if eventType = some codes.click ∨ eventType = none then
      some (.tap index (some 1))
    else if ¬ eventType = some codes.scrollTop ∧ ¬ eventType = some codes.scrollBottom then
      some (.tap index (some 1))
    else none

/-- actions.ts:8-52; `focusedListIndex` is
`(state as AppState)?.focusedListIndex ?? 0`. -/
def mapEvenHubEvent (codes : OsEventCodes) (event : EvenHubEvent)
    (focusedListIndex : Int) : Option Action :=
  match event.sysEventType with
  | some rawType =>
    if rawType = some 3 then some (.tap focusedListIndex (some 2))
    else mapListEvent codes event
  | none => mapListEvent codes event

/-! ## Gesture accumulation and commit dispatch (src/app.ts:752-759,
1234-1303, 1515-1550)

The pending commit timer is modelled by its fire time: every raw event
first cancels it (`clearTimeout`) and then either reschedules it at
`now + TAP_COMMIT_MS` or, when suppressed for scrolling, leaves none. -/

structure GestureConfig where
  tapWindowMs : Int
  tapCommitMs : Int
  scrollWindowMs : Int
  deriving DecidableEq, Repr

/-- app.ts:752-754: longer windows on real glasses. -/
def gestureConfig (useRealGlasses : Bool) : GestureConfig :=
  { tapWindowMs := if useRealGlasses then 800 else 400,
    tapCommitMs := if useRealGlasses then 800 else 450,
    scrollWindowMs := 400 }

structure GestureSession where
  lastTapTime : Int := 0
  lastTapIndex : Int := -1
  tapCount : Nat := 0
  /-- `recentListIndices`: (index, time) pairs, oldest first. -/
  recent : List (Int × Int) := []
  pendingCommitAt : Option Int := none
  deriving DecidableEq, Repr

def idleSession : GestureSession := {}

/-- The `TAP` branch of the `subscribeEvents` handler (app.ts:1517-1548).
The `while` loop drops entries with `time < cutoff` from the front. -/
def tapStep (cfg : GestureConfig) (s : GestureSession) (listIndex : Int)
    (gestureTaps : Nat) (now : Int) : GestureSession :=
  let recent1 := s.recent ++ [(listIndex, now)]
  let cutoff := now - cfg.scrollWindowMs
  let recent2 := recent1.dropWhile (fun e => e.2 < cutoff)
  let uniqueIndicesInWindow := (recent2.map (·.1)).dedup.length
  let likelyScrolling := 2 ≤ uniqueIndicesInWindow
  let isSameItemAgain :=
    listIndex = s.lastTapIndex ∧ now - s.lastTapTime ≤ cfg.tapWindowMs
  let isNewItemSingleTap := ¬ isSameItemAgain ∧ gestureTaps = 1
  { lastTapTime := now,
    lastTapIndex := if isSameItemAgain then s.lastTapIndex else listIndex,
    tapCount :=
      if isSameItemAgain then min (s.tapCount + gestureTaps) 4
      else min gestureTaps 4,
    recent := recent2,
    pendingCommitAt :=
      if isNewItemSingleTap ∧ likelyScrolling then none
      else some (now + cfg.tapCommitMs) }

/-- app.ts:1259-1266. -/
def isPaginatedList : ListView → Bool
  | .scenes | .rooms | .devices | .favorites
  | .deviceDim | .roomAllDetail | .roomAllDim => true
  | _ => false

/-- Target view of the first-page double-tap "jump up one level"
(app.ts:1277-1291). -/
def parentView : ListView → ListView
  | .devices => .rooms
  | .roomAllDetail => .devices
  | .roomAllDim => .roomAllDetail
  | .rooms => .main
  | .scenes => .main
  | .favorites => .main
  | .deviceDim => .deviceDetail
  | v => v

inductive CommitOutcome where
  | pagePrev
  | navParent (v : ListView)
  | jumpLast (pageIndex : Nat)
  | primary (listIndex : Int)
  | noop
  deriving DecidableEq, Repr

/-- The tap-count dispatch of `commitTap` for the paginated-list family
(app.ts:1268-1304); `primary` stands for the view-specific single-tap
handling that follows it.  The first-page double-tap condition lists every
paginated view except rooms, i.e. `listIndex = 0 ∨ view ≠ rooms`. -/
def commitDispatch (view : ListView) (page totalPages : Nat)
    (listIndex : Int) (tapCount : Nat) : CommitOutcome :=
  if ¬ isPaginatedList view then .noop
  else if tapCount = 2 ∧ ¬ page = 0 then .pagePrev
  else if tapCount = 2 ∧ page = 0 ∧ (listIndex = 0 ∨ ¬ view = .rooms) then
    .navParent (parentView view)
  else if 3 ≤ tapCount ∧ ¬ page = totalPages - 1 then .jumpLast (totalPages - 1)
  else if tapCount = 1 then .primary listIndex
  else .noop

/-- The 25-device state on page 1 (device 20 is placed there). -/
def c2DevState : AppState := { c1State with listPageIndex := 1 }

/-- 20 scenes in explicit custom order; page 1 (scene 19 is placed there). -/
def c2SceneState : AppState :=
  { listView := .scenes,
    scenes := (List.range 20).map (fun k => { sceneId := toString k, sceneName := toString k }),
    status := .ready,
    listPageIndex := 1,
    preferences :=
      { listOrder := { scenes := .custom },
        listOrderCustomIds := { scenes := (List.range 20).map toString } } }

/-- 20 favorite scene references in explicit custom order. -/
def c2FavState : AppState :=
  { listView := .favorites,
    listPageIndex := 1,
    preferences :=
      { listOrder := { favorites := .custom },
        favoritesIds := (List.range 20).map (fun k => { isScene := true, id := toString k }) } }

/-- A state with a stale device selection, used against `NAV_ROOM`. -/
def c9State : AppState := { selectedDeviceId := some "dev-1" }

/-- A favorites screen over empty collections (no favorites configured). -/
def c8FavEmptyState : AppState := { listView := .favorites }

/-- A scenes screen over an empty, loaded scene collection. -/
def c8SceneEmptyState : AppState := { listView := .scenes, status := .ready }

/-- Concrete scene collection used to instantiate ordering witnesses. -/
def c3Items : List SceneEntry :=
  [⟨"id-a", "Bravo"⟩, ⟨"id-b", "alpha"⟩, ⟨"id-c", "Charlie"⟩]

/-- Concrete custom id list with a duplicate and an unknown id. -/
def c3Ids : List String := ["id-b", "id-b", "zz"]

/-! ## Scroll suppression: folded tap sequences -/

/-- Folding a list of single-tap events (position, time) through the TAP
handler, oldest first. -/
def foldTaps (cfg : GestureConfig) (s : GestureSession)
    (events : List (Int × Int)) : GestureSession :=
  events.foldl (fun acc e => tapStep cfg acc e.1 1 e.2) s

/-- The claim's scrolling pattern between consecutive events: strictly
increasing position, non-decreasing time, within the scroll window. -/
def scrollChain (w : Int) (a b : Int × Int) : Prop :=
  a.1 < b.1 ∧ a.2 ≤ b.2 ∧ b.2 - a.2 ≤ w

instance (w : Int) (a b : Int × Int) : Decidable (scrollChain w a b) :=
  inferInstanceAs (Decidable (a.1 < b.1 ∧ a.2 ≤ b.2 ∧ b.2 - a.2 ≤ w))

end EvenST

namespace EvenST

/-! ## Supporting lemmas: sorting -/

theorem mem_insertByCmp {T : Type} (cmp : T → T → Ordering) (x : T)
    (l : List T) {z : T} (hz : z ∈ insertByCmp cmp x l) : z = x ∨ z ∈ l := by
  induction l with
  | nil => simpa [insertByCmp] using hz
  | cons y ys ih =>
    unfold insertByCmp at hz
    split at hz
    · simpa using hz
    · rcases List.mem_cons.1 hz with h | h
      · exact Or.inr (by simp [h])
      · rcases ih h with h' | h'
        · exact Or.inl h'
        · exact Or.inr (List.mem_cons_of_mem _ h')

theorem insertByCmp_perm {T : Type} (cmp : T → T → Ordering) (x : T)
    (l : List T) : (insertByCmp cmp x l).Perm (x :: l) := by
  induction l with
  | nil => simp [insertByCmp]
  | cons y ys ih =>
    unfold insertByCmp
    split
    · exact List.Perm.refl _
    · exact (ih.cons y).trans (List.Perm.swap x y ys)

theorem sortByCmp_perm {T : Type} (cmp : T → T → Ordering) (l : List T) :
    (sortByCmp cmp l).Perm l := by
  induction l with
  | nil => simp [sortByCmp]
  | cons x xs ih =>
    exact (insertByCmp_perm cmp x (sortByCmp cmp xs)).trans (ih.cons x)

theorem insertByCmp_pairwise {T : Type} {cmp : T → T → Ordering}
    {R : T → T → Prop} (htrans : Transitive R)
    (h1 : ∀ a b, cmp a b = .lt → R a b)
    (h2 : ∀ a b, ¬ cmp a b = .lt → R b a)
    (x : T) (l : List T) (hl : l.Pairwise R) :
    (insertByCmp cmp x l).Pairwise R := by
  induction l with
  | nil => simp [insertByCmp]
  | cons y ys ih =>
    rcases List.pairwise_cons.1 hl with ⟨hy, hys⟩
    unfold insertByCmp
    by_cases hcmp : cmp x y = Ordering.lt
    · rw [if_pos hcmp]
      refine List.pairwise_cons.2 ⟨?_, hl⟩
      intro z hz
      rcases List.mem_cons.1 hz with rfl | hz'
      · exact h1 _ _ hcmp
      · exact htrans (h1 _ _ hcmp) (hy z hz')
    · rw [if_neg hcmp]
      refine List.pairwise_cons.2 ⟨?_, ih hys⟩
      intro z hz
      rcases mem_insertByCmp cmp x ys hz with rfl | hz'
      · exact h2 _ _ hcmp
      · exact hy z hz'

theorem sortByCmp_pairwise {T : Type} {cmp : T → T → Ordering}
    {R : T → T → Prop} (htrans : Transitive R)
    (h1 : ∀ a b, cmp a b = .lt → R a b)
    (h2 : ∀ a b, ¬ cmp a b = .lt → R b a)
    (l : List T) : (sortByCmp cmp l).Pairwise R := by
  induction l with
  | nil => simp [sortByCmp]
  | cons x xs ih => exact insertByCmp_pairwise htrans h1 h2 x _ ih

theorem localeCmp_lt_iff (a b : String) :
    localeCmp a b = .lt ↔ strToLower a < strToLower b := by
  unfold localeCmp
  by_cases h : strToLower a < strToLower b
  · simp [h]
  · rw [if_neg h]
    by_cases h2 : strToLower b < strToLower a
    · simp [h2, h]
    · simp [h2, h]

/-! ## Supporting lemmas: JS Map association list -/

theorem mapFromItems_eq_of_nodup {T : Type} (getKey : T → String)
    (items : List T) (hn : (items.map getKey).Nodup) :
    mapFromItems getKey items = items.map (fun it => (getKey it, it)) := by
  suffices h : ∀ acc : List (String × T),
      (∀ k ∈ acc.map (·.1), k ∉ items.map getKey) →
      items.foldl (fun m it => mapSet m (getKey it) it) acc =
        acc ++ items.map (fun it => (getKey it, it)) by
    simpa [mapFromItems] using h [] (by simp)
  induction items with
  | nil => intro acc _; simp
  | cons it rest ih =>
    intro acc hdisj
    have hnotin : ¬ acc.any (fun p => p.1 = getKey it) = true := by
      simp only [List.any_eq_true, decide_eq_true_eq]
      rintro ⟨p, hp, hpk⟩
      exact hdisj p.1 (List.mem_map_of_mem _ hp) (by simp [hpk])
    have hset : mapSet acc (getKey it) it = acc ++ [(getKey it, it)] := by
      simp [mapSet, hnotin]
    have hrest : (rest.map getKey).Nodup := (List.nodup_cons.1 (by simpa using hn)).2
    have hni : getKey it ∉ rest.map getKey := (List.nodup_cons.1 (by simpa using hn)).1
    simp only [List.foldl_cons, hset]
    rw [ih hrest]
    · simp
    · intro k hk
      rcases List.mem_map.1 hk with ⟨p, hp, rfl⟩
      rcases List.mem_append.1 hp with hp' | hp'
      · intro hmem
        exact hdisj p.1 (List.mem_map_of_mem _ hp') (by simp [hmem])
      · simp only [List.mem_singleton] at hp'
        subst hp'
        exact hni

theorem mapDelete_keys_nodup {T : Type} {m : List (String × T)} (k : String)
    (hk : (m.map (·.1)).Nodup) : ((mapDelete m k).map (·.1)).Nodup :=
  ((List.filter_sublist m).map (·.1)).nodup hk

theorem mapGet_perm_delete {T : Type} {m : List (String × T)} {k : String}
    {v : T} (hk : (m.map (·.1)).Nodup) (hget : mapGet m k = some v) :
    m.Perm ((k, v) :: mapDelete m k) := by
  induction m with
  | nil => simp [mapGet] at hget
  | cons p rest ih =>
    rw [List.map_cons, List.nodup_cons] at hk
    by_cases hp : p.1 = k
    · have hfind : (p :: rest).find? (fun q => q.1 = k) = some p := by
        simp [List.find?_cons, hp]
      have hv : v = p.2 := by
        simp [mapGet, hfind] at hget
        exact hget.symm
      have hrest : mapDelete (p :: rest) k = rest := by
        simp [mapDelete, List.filter_cons, hp]
        intro a b hab hak
        apply hk.1
        rw [hp, ← hak]
        exact List.mem_map_of_mem _ hab
      have hpe : p = (k, p.2) := by
        rw [← hp]
      rw [hrest, hv, ← hpe]
    · have hfind : mapGet rest k = some v := by
        simpa [mapGet, List.find?_cons, hp] using hget
      have hdel : mapDelete (p :: rest) k = p :: mapDelete rest k := by
        simp [mapDelete, List.filter_cons, hp]
      rw [hdel]
      exact ((ih hk.2 hfind).cons p).trans
        (List.Perm.swap (k, v) p (mapDelete rest k))

theorem pickLoop_perm {T : Type} (ids : List String) (m : List (String × T))
    (hk : (m.map (·.1)).Nodup) :
    (m.map (·.2)).Perm
      ((pickLoop ids m).1 ++ ((pickLoop ids m).2.map (·.2))) := by
  induction ids generalizing m with
  | nil => simp [pickLoop]
  | cons id ids ih =>
    cases hget : mapGet m id with
    | none => simpa [pickLoop, hget] using ih m hk
    | some item =>
      have hperm := (mapGet_perm_delete hk hget).map (·.2)
      have hdel := mapDelete_keys_nodup id hk
      have := ih (mapDelete m id) hdel
      simp only [pickLoop, hget]
      refine hperm.trans ?_
      simpa using this.cons item

theorem pickLoop_rest_mem {T : Type} (ids : List String)
    (m : List (String × T)) {p : String × T}
    (hp : p ∈ (pickLoop ids m).2) : p ∈ m ∧ p.1 ∉ ids := by
  induction ids generalizing m with
  | nil => simpa [pickLoop] using hp
  | cons id ids ih =>
    cases hget : mapGet m id with
    | none =>
      rw [pickLoop, hget] at hp
      rcases ih m hp with ⟨hm, hni⟩
      have hne : p.1 ≠ id := by
        intro h
        have : m.find? (fun q => q.1 = id) = none := by
          simpa [mapGet] using hget
        rcases List.find?_eq_none.1 this p hm with hc
        simp [h] at hc
      simp [hm, hne, hni]
    | some item =>
      rw [pickLoop, hget] at hp
      rcases ih (mapDelete m id) hp with ⟨hm, hni⟩
      rcases List.mem_filter.1 hm with ⟨hm', hpred⟩
      have hne : p.1 ≠ id := by simpa using hpred
      simp [hm', hne, hni]

theorem pickLoop_picked_mem {T : Type} (getKey : T → String)
    (ids : List String) (m : List (String × T))
    (hkv : ∀ p ∈ m, p.1 = getKey p.2) {x : T}
    (hx : x ∈ (pickLoop ids m).1) : getKey x ∈ ids := by
  induction ids generalizing m with
  | nil => simp [pickLoop] at hx
  | cons id ids ih =>
    cases hget : mapGet m id with
    | none =>
      rw [pickLoop, hget] at hx
      exact List.mem_cons_of_mem _ (ih m hkv hx)
    | some item =>
      rw [pickLoop, hget] at hx
      rcases List.mem_cons.1 hx with rfl | hx'
      · rcases hfind : m.find? (fun q => q.1 = id) with - | q
        · simp [mapGet, hfind] at hget
        · have hq : q ∈ m := List.mem_of_find?_eq_some hfind
          have hqk : q.1 = id := by simpa using List.find?_some hfind
          have hqv : q.2 = x := by simp [mapGet, hfind] at hget; exact hget
          have := hkv q hq
          rw [hqk, hqv] at this
          simp [← this]
      · refine List.mem_cons_of_mem _ (ih (mapDelete m id) ?_ hx')
        intro p hp
        exact hkv p (List.mem_filter.1 hp).1

/-- Core permutation fact for custom ordering, shared by several claims. -/
theorem applyOrder_custom_perm {T : Type} (items : List T)
    (getKey getName : T → String) (customIds : List String)
    (hn : (items.map getKey).Nodup) :
    (applyOrder items getKey getName .custom customIds).Perm items := by
  have hm0 : mapFromItems getKey items = items.map (fun it => (getKey it, it)) :=
    mapFromItems_eq_of_nodup getKey items hn
  have hkeys : ((mapFromItems getKey items).map (·.1)).Nodup := by
    rw [hm0, List.map_map]
    simpa [Function.comp] using hn
  have hvals : (mapFromItems getKey items).map (·.2) = items := by
    rw [hm0, List.map_map]
    have hcomp : ((fun p : String × T => p.2) ∘ fun it => (getKey it, it)) = id := rfl
    rw [hcomp, List.map_id]
  set r := pickLoop customIds (mapFromItems getKey items) with hr
  have hpl := pickLoop_perm customIds (mapFromItems getKey items) hkeys
  rw [hvals] at hpl
  have hsortp : (sortByCmp (nameCmp getName) (r.2.map (·.2))).Perm
      (r.2.map (·.2)) := sortByCmp_perm _ _
  show (r.1 ++ sortByCmp (nameCmp getName) (r.2.map (·.2))).Perm items
  exact ((List.Perm.refl r.1).append hsortp).trans hpl.symm

/-- `applyOrder` never changes the collection's length (for unique keys). -/
theorem applyOrder_length {T : Type} (items : List T)
    (getKey getName : T → String) (pref : ListOrderPreference)
    (customIds : List String) (hn : (items.map getKey).Nodup) :
    (applyOrder items getKey getName pref customIds).length = items.length := by
  cases pref with
  | alphabetical => exact (sortByCmp_perm _ _).length_eq
  | reverse =>
    show (sortByCmp (nameCmp getName) items).reverse.length = items.length
    rw [List.length_reverse]
    exact (sortByCmp_perm _ _).length_eq
  | custom => exact (applyOrder_custom_perm items getKey getName customIds hn).length_eq

/-- The composer's shared pagination places entry `i` of the name list at
page `pagedPlacementPage` and slot `pagedPlacementSlot`, and shows exactly
that name there. -/
theorem pagedLabels_get (perPage : Nat) (hpp : 1 ≤ perPage)
    (names : List String) (i : Nat) (hi : i < names.length) :
    (pagedLabels perPage names
        (pagedPlacementPage perPage names.length i)).get?
      (pagedPlacementSlot perPage names.length i) = names.get? i := by
  by_cases hfirst : i < pagedFirstPageSlots perPage names.length
  · have hpage : pagedPlacementPage perPage names.length i = 0 := by
      simp [pagedPlacementPage, hfirst]
    have hslot : pagedPlacementSlot perPage names.length i = 1 + i := by
      simp [pagedPlacementSlot, hfirst]
    rw [hpage, hslot]
    by_cases hnp : names.length ≤ perPage
    · have hfps : pagedFirstPageSlots perPage names.length = perPage := by
        simp [pagedFirstPageSlots, hnp]
      rw [hfps] at hfirst
      simp only [pagedLabels]
      simp only [hnp, if_true, if_pos]
      norm_num
      rw [Nat.add_comm]
      rw [List.getElem?_cons_succ]
      exact List.getElem?_take_of_lt hfirst
    · have hfps : pagedFirstPageSlots perPage names.length = perPage - 1 := by
        simp [pagedFirstPageSlots, hnp]
      rw [hfps] at hfirst
      have hd1 : 1 ≤ (names.length - (perPage - 1) + perPage - 1) / perPage :=
        (Nat.one_le_div_iff (by omega)).2 (by omega)
      have hL : ¬ (0 = 1 + (names.length - (perPage - 1) + perPage - 1) / perPage - 1) := by
        omega
      simp only [pagedLabels]
      simp only [hnp, if_false]
      norm_num
      have hL0 : ¬ (0 = (names.length - (perPage - 1) + perPage - 1) / perPage) := by
        omega
      simp only [hL0, if_false]
      rw [Nat.add_comm, List.getElem?_cons_succ]
      have hlen : i < (List.take (perPage - 1) names).length := by
        simp [List.length_take]
        omega
      rw [List.getElem?_append_left hlen]
      exact List.getElem?_take_of_lt hfirst
  · have hnp : ¬ names.length ≤ perPage := by
      intro hle
      apply hfirst
      have h1 : pagedFirstPageSlots perPage names.length = perPage := by
        simp [pagedFirstPageSlots, hle]
      omega
    have hfps : pagedFirstPageSlots perPage names.length = perPage - 1 := by
      simp [pagedFirstPageSlots, hnp]
    rw [hfps] at hfirst
    have hif : perPage - 1 ≤ i := by omega
    have hdm := Nat.div_add_mod (i - (perPage - 1)) perPage
    have hmod : (i - (perPage - 1)) % perPage < perPage := Nat.mod_lt _ (by omega)
    have hpage : pagedPlacementPage perPage names.length i =
        1 + (i - (perPage - 1)) / perPage := by
      unfold pagedPlacementPage
      rw [hfps, if_neg (by omega)]
    have hslot : pagedPlacementSlot perPage names.length i =
        1 + (i - (perPage - 1)) % perPage := by
      unfold pagedPlacementSlot
      rw [hfps, if_neg (by omega)]
    rw [hpage, hslot]
    have hD : (names.length - (perPage - 1) + perPage - 1) / perPage =
        (names.length - (perPage - 1) - 1) / perPage + 1 := by
      have he : names.length - (perPage - 1) + perPage - 1 =
          (names.length - (perPage - 1) - 1) + perPage := by omega
      rw [he, Nat.add_div_right _ (by omega)]
    have hqle : (i - (perPage - 1)) / perPage ≤
        (names.length - (perPage - 1) - 1) / perPage :=
      Nat.div_le_div_right (by omega)
    have hD0 : ¬ ((names.length - (perPage - 1) + perPage - 1) / perPage = 0) := by
      rw [hD]
      exact Nat.succ_ne_zero _
    have h1q : 1 + (i - (perPage - 1)) / perPage ≤
        (names.length - (perPage - 1) + perPage - 1) / perPage := by
      rw [hD, Nat.add_comm _ 1]
      exact Nat.add_le_add_left hqle 1
    have hmin : (1 + (i - (perPage - 1)) / perPage) ⊓
        ((names.length - (perPage - 1) + perPage - 1) / perPage) =
        1 + (i - (perPage - 1)) / perPage := Nat.min_eq_left h1q
    simp only [pagedLabels]
    simp only [hnp, if_false]
    norm_num
    simp only [hD0, hmin, if_false, false_and]
    norm_num
    have hdm2 : (i - (perPage - 1)) / perPage * perPage +
        (i - (perPage - 1)) % perPage = i - (perPage - 1) := by
      rw [Nat.mul_comm] at hdm
      exact hdm
    have htl : (i - (perPage - 1)) % perPage <
        (List.take perPage
          (List.drop (perPage - 1 + (i - (perPage - 1)) / perPage * perPage) names)).length := by
      rw [List.length_take, List.length_drop]
      refine lt_min hmod ?_
      omega
    rw [Nat.add_comm 1 ((i - (perPage - 1)) % perPage)]
    by_cases hlast : (names.length - (perPage - 1) + perPage - 1) / perPage ≤
        1 + (i - (perPage - 1)) / perPage
    · rw [if_pos hlast, List.getElem?_cons_succ, List.getElem?_append_left htl,
        List.getElem?_take_of_lt hmod, List.getElem?_drop]
      congr 1
      omega
    · rw [if_neg hlast, List.getElem?_cons_succ, List.getElem?_append_left htl,
        List.getElem?_take_of_lt hmod, List.getElem?_drop]
      congr 1
      omega

theorem dev17 : DEVICES_PER_PAGE - 1 = 17 := by
  norm_num [DEVICES_PER_PAGE, SCENES_PER_PAGE, LIST_MAX_ITEMS]

/-- The devices composer shows device `i`'s label at its placement
page/slot, and `getDeviceIndexFromDevicesList` recovers `i` from there. -/
theorem deviceNames_get (st : AppState) (i : Nat)
    (hi : i < (getOrderedDevices st).length)
    (hp : st.listPageIndex = devicePlacementPage (getOrderedDevices st).length i) :
    (deviceNamesForListView st).get?
      (devicePlacementSlot (getOrderedDevices st).length i) =
      ((getOrderedDevices st).map (deviceLabel st)).get? i := by
  by_cases hnn : 17 < 1 + (getOrderedDevices st).length
  · have hfd : devFirstPageDeviceCount (getOrderedDevices st).length = 15 := by
      simp only [devFirstPageDeviceCount, dev17]
      rw [if_pos hnn, if_pos hnn]
    by_cases hfirst : i < 15
    · have hpage : devicePlacementPage (getOrderedDevices st).length i = 0 := by
        simp only [devicePlacementPage, hfd]
        rw [if_pos hfirst]
      have hslot : devicePlacementSlot (getOrderedDevices st).length i = i + 1 + 1 := by
        simp only [devicePlacementSlot, hfd]
        rw [if_pos hfirst]
        omega
      rw [hpage] at hp
      rw [hslot]
      simp only [deviceNamesForListView, dev17]
      rw [if_neg (by omega)]
      simp only [hp, hnn, if_true]
      norm_num
      have hD0 : ¬ (0 = (((getOrderedDevices st).length - 15 + 16) / 17)) := by
        have h1 := (Nat.one_le_div_iff (by norm_num : 0 < 17)).2
          (show 17 ≤ (getOrderedDevices st).length - 15 + 16 by omega)
        omega
      rw [if_neg hD0, List.getElem?_cons_succ, List.getElem?_cons_succ]
      rw [List.getElem?_append_left (by simp [List.length_take]; omega)]
      rw [List.getElem?_take_of_lt hfirst]
      simp [List.getElem?_map]
    · have hpage : devicePlacementPage (getOrderedDevices st).length i =
          1 + (i - 15) / 17 := by
        simp only [devicePlacementPage, hfd, dev17]
        rw [if_neg hfirst]
      have hslot : devicePlacementSlot (getOrderedDevices st).length i =
          (i - 15) % 17 + 1 := by
        simp only [devicePlacementSlot, hfd, dev17]
        rw [if_neg hfirst]
        omega
      rw [hpage] at hp
      rw [hslot]
      simp only [deviceNamesForListView, dev17]
      rw [if_neg (by omega)]
      simp only [hp, hnn, if_true]
      norm_num
      have hD0 : ¬ ((((getOrderedDevices st).length - 15 + 16) / 17) = 0) := by
        omega
      rw [if_neg hD0]
      have hmin : (1 + (i - 15) / 17) ⊓ (((getOrderedDevices st).length - 15 + 16) / 17) =
          1 + (i - 15) / 17 := by omega
      rw [hmin]
      have hq1 : 1 + (i - 15) / 17 - 1 = (i - 15) / 17 := by omega
      rw [hq1]
      rw [List.getElem?_cons_succ]
      have hsi : 15 + (i - 15) / 17 * 17 + (i - 15) % 17 = i := by omega
      by_cases hlast : ((getOrderedDevices st).length - 15 + 16) / 17 ≤ 1 + (i - 15) / 17
      · by_cases hshort :
            (getOrderedDevices st).length - (15 + (i - 15) / 17 * 17) < 17
        · rw [if_pos ⟨hlast, hshort⟩, if_pos hlast]
          rw [List.getElem?_append_left
            (by simp only [List.length_take, List.length_drop, List.length_map]; omega)]
          rw [List.getElem?_take_of_lt (by omega), List.getElem?_drop, hsi]
          simp [List.getElem?_map]
        · rw [if_neg (fun hc => hshort hc.2), if_pos hlast]
          rw [List.getElem?_append_left
            (by simp only [List.length_take, List.length_drop, List.length_map]; omega)]
          rw [List.getElem?_take_of_lt (by omega), List.getElem?_drop, hsi]
          simp [List.getElem?_map]
      · rw [if_neg (fun hc => hlast hc.1), if_neg hlast]
        rw [List.getElem?_append_left
          (by simp only [List.length_take, List.length_drop, List.length_map]; omega)]
        rw [List.getElem?_take_of_lt (by omega), List.getElem?_drop, hsi]
        simp [List.getElem?_map]
  · have hfd : devFirstPageDeviceCount (getOrderedDevices st).length =
        (getOrderedDevices st).length := by
      simp only [devFirstPageDeviceCount, dev17]
      rw [if_neg hnn, if_neg hnn]
      omega
    have hfirst : i < devFirstPageDeviceCount (getOrderedDevices st).length := by
      rw [hfd]
      exact hi
    have hpage : devicePlacementPage (getOrderedDevices st).length i = 0 := by
      simp only [devicePlacementPage]
      rw [if_pos hfirst]
    have hslot : devicePlacementSlot (getOrderedDevices st).length i = i + 1 + 1 := by
      simp only [devicePlacementSlot]
      rw [if_pos hfirst]
      omega
    rw [hpage] at hp
    rw [hslot]
    simp only [deviceNamesForListView, dev17]
    rw [if_neg (by omega)]
    simp only [hp, hnn, if_false]
    norm_num

theorem deviceIndex_inverse (st : AppState) (i : Nat)
    (hi : i < (getOrderedDevices st).length) :
    getDeviceIndexFromDevicesList st
      (devicePlacementPage (getOrderedDevices st).length i)
      ((devicePlacementSlot (getOrderedDevices st).length i : Nat) : Int) = i := by
  simp only [getDeviceIndexFromDevicesList, devicePlacementPage,
    devicePlacementSlot, devFirstPageDeviceCount]
  generalize (getOrderedDevices st).length = n at hi ⊢
  norm_num [DEVICES_PER_PAGE, SCENES_PER_PAGE, LIST_MAX_ITEMS]
  by_cases hnn : 17 < 1 + n
  · simp only [hnn, if_true]
    norm_num
    by_cases hfirst : i < 15
    · simp only [hfirst, if_true, if_pos]
      split_ifs <;> omega
    · simp only [hfirst, if_false]
      split_ifs <;> omega
  · simp only [hnn, if_false]
    have hfirst : i < 1 + n - 1 - 0 := by omega
    simp only [hfirst, if_true, if_pos]
    split_ifs <;> push_cast <;> omega

theorem scenes_labels_at (st : AppState) (i : Nat)
    (hi : i < (getOrderedScenes st).length)
    (hp : st.listPageIndex =
      pagedPlacementPage SCENES_PER_PAGE (getOrderedScenes st).length i) :
    (sceneNamesForListView st).get?
      (pagedPlacementSlot SCENES_PER_PAGE (getOrderedScenes st).length i) =
      ((getOrderedScenes st).map (sceneLabel st)).get? i := by
  have hne : ¬ (getOrderedScenes st).length = 0 := by omega
  have hlen : ((getOrderedScenes st).map (sceneLabel st)).length =
      (getOrderedScenes st).length := List.length_map _ _
  simp only [sceneNamesForListView]
  rw [if_neg hne, hp]
  have h := pagedLabels_get SCENES_PER_PAGE
    (by norm_num [SCENES_PER_PAGE, LIST_MAX_ITEMS])
    ((getOrderedScenes st).map (sceneLabel st)) i (by omega)
  rw [hlen] at h
  exact h

theorem scenes_router_inverse (st : AppState) (i : Nat)
    (hv : st.listView = .scenes)
    (hnd : (st.scenes.map (·.sceneId)).Nodup)
    (hi : i < (getOrderedScenes st).length) :
    commitTapSceneIndex st
      (pagedPlacementPage SCENES_PER_PAGE (getOrderedScenes st).length i)
      ((pagedPlacementSlot SCENES_PER_PAGE (getOrderedScenes st).length i : Nat) : Int)
      = i := by
  have hlen : (getOrderedScenes st).length = st.scenes.length :=
    applyOrder_length st.scenes (·.sceneId) (·.sceneName) _ _ hnd
  simp only [commitTapSceneIndex, getFirstPageContentSlots, hv]
  simp only [pagedPlacementPage, pagedPlacementSlot, pagedFirstPageSlots]
  rw [← hlen]
  norm_num [SCENES_PER_PAGE, LIST_MAX_ITEMS]
  generalize (getOrderedScenes st).length = n at hi ⊢
  by_cases hn18 : n ≤ 18
  · simp only [hn18, if_true]
    have hfirst : i < 18 := by omega
    simp only [hfirst, if_true, if_pos]
    omega
  · simp only [hn18, if_false]
    by_cases hfirst : i < 17
    · simp only [hfirst, if_true, if_pos]
      omega
    · simp only [hfirst, if_false]
      omega

theorem rooms_labels_at (st : AppState) (i : Nat)
    (hi : i < (getOrderedRooms st).length)
    (hp : st.listPageIndex =
      pagedPlacementPage ROOMS_PER_PAGE (getOrderedRooms st).length i) :
    (roomNamesForListView st).get?
      (pagedPlacementSlot ROOMS_PER_PAGE (getOrderedRooms st).length i) =
      ((getOrderedRooms st).map (roomLabel st)).get? i := by
  have hne : ¬ (getOrderedRooms st).length = 0 := by omega
  have hlen : ((getOrderedRooms st).map (roomLabel st)).length =
      (getOrderedRooms st).length := List.length_map _ _
  simp only [roomNamesForListView]
  rw [if_neg hne, hp]
  have h := pagedLabels_get ROOMS_PER_PAGE
    (by norm_num [ROOMS_PER_PAGE, SCENES_PER_PAGE, LIST_MAX_ITEMS])
    ((getOrderedRooms st).map (roomLabel st)) i (by omega)
  rw [hlen] at h
  exact h

theorem rooms_router_inverse (st : AppState) (i : Nat)
    (hv : st.listView = .rooms)
    (hnd : (st.rooms.map (·.roomId)).Nodup)
    (hi : i < (getOrderedRooms st).length) :
    commitTapRoomIndex st
      (pagedPlacementPage ROOMS_PER_PAGE (getOrderedRooms st).length i)
      ((pagedPlacementSlot ROOMS_PER_PAGE (getOrderedRooms st).length i : Nat) : Int)
      = i := by
  have hlen : (getOrderedRooms st).length = st.rooms.length :=
    applyOrder_length st.rooms (·.roomId) (·.roomName) _ _ hnd
  simp only [commitTapRoomIndex, getFirstPageContentSlots, hv]
  simp only [pagedPlacementPage, pagedPlacementSlot, pagedFirstPageSlots]
  rw [← hlen]
  norm_num [ROOMS_PER_PAGE, SCENES_PER_PAGE, LIST_MAX_ITEMS]
  generalize (getOrderedRooms st).length = n at hi ⊢
  by_cases hn18 : n ≤ 18
  · simp only [hn18, if_true]
    have hfirst : i < 18 := by omega
    simp only [hfirst, if_true, if_pos]
    omega
  · simp only [hn18, if_false]
    by_cases hfirst : i < 17
    · simp only [hfirst, if_true, if_pos]
      omega
    · simp only [hfirst, if_false]
      omega

theorem favorites_labels_at (st : AppState) (i : Nat)
    (hi : i < (getOrderedFavorites st).length)
    (hp : st.listPageIndex =
      pagedPlacementPage SCENES_PER_PAGE (getOrderedFavorites st).length i) :
    (favoriteNamesForListView st).get?
      (pagedPlacementSlot SCENES_PER_PAGE (getOrderedFavorites st).length i) =
      ((getOrderedFavorites st).map (fun f => truncateName f.displayName)).get? i := by
  have hne : ¬ (getOrderedFavorites st).length = 0 := by omega
  have hlen : ((getOrderedFavorites st).map (fun f => truncateName f.displayName)).length =
      (getOrderedFavorites st).length := List.length_map _ _
  simp only [favoriteNamesForListView]
  rw [if_neg hne, hp]
  have h := pagedLabels_get SCENES_PER_PAGE
    (by norm_num [SCENES_PER_PAGE, LIST_MAX_ITEMS])
    ((getOrderedFavorites st).map (fun f => truncateName f.displayName)) i (by omega)
  rw [hlen] at h
  exact h

theorem favorites_router_inverse (st : AppState) (i : Nat)
    (hv : st.listView = .favorites)
    (hi : i < (getOrderedFavorites st).length) :
    commitTapFavoriteIndex st
      (pagedPlacementPage SCENES_PER_PAGE (getOrderedFavorites st).length i)
      ((pagedPlacementSlot SCENES_PER_PAGE (getOrderedFavorites st).length i : Nat) : Int)
      = i := by
  simp only [commitTapFavoriteIndex, getFirstPageContentSlots, hv]
  simp only [pagedPlacementPage, pagedPlacementSlot, pagedFirstPageSlots]
  norm_num [SCENES_PER_PAGE, LIST_MAX_ITEMS]
  generalize (getOrderedFavorites st).length = n at hi ⊢
  by_cases hn18 : n ≤ 18
  · simp only [hn18, if_true]
    have hfirst : i < 18 := by omega
    simp only [hfirst, if_true, if_pos]
    omega
  · simp only [hn18, if_false]
    by_cases hfirst : i < 17
    · simp only [hfirst, if_true, if_pos]
      omega
    · simp only [hfirst, if_false]
      omega

/-! ## Claim theorems -/

/-- C7: for a batch of `total ≥ 1` per-device actions of which
`successCount` succeeded, `confirmationResultFromCounts` classifies the
outcome as success iff all succeeded, failure iff none succeeded, and
partial otherwise (src/app.ts:546-550, used at src/app.ts:1194). -/
theorem confirmation_classification (successCount total : Nat)
    (htot : 1 ≤ total) (hle : successCount ≤ total) :
    (confirmationResultFromCounts successCount total = .success ↔ successCount = total) ∧
    (confirmationResultFromCounts successCount total = .failure ↔ successCount = 0) ∧
    (confirmationResultFromCounts successCount total = .mixed ↔
      (successCount ≠ 0 ∧ successCount ≠ total)) := by
  unfold confirmationResultFromCounts
  split_ifs with h1 h2 <;> refine ⟨?_, ?_, ?_⟩ <;> simp_all <;> omega

/-- Witness for `confirmation_classification` at `successCount = 2`,
`total = 3`: the outcome is `partial`. -/
theorem confirmation_classification_witness :
    confirmationResultFromCounts 2 3 = .mixed :=
  ((confirmation_classification 2 3 (by decide) (by decide)).2.2).mpr (by decide)

/-- C3: custom ordering is a total, duplicate-free permutation.  For every
entity collection with unique identifiers and every explicit id list
(arbitrary extra, duplicate, or missing ids), `applyOrder _ _ _ custom _`
(src/state/selectors.ts:20-53) is a permutation of the collection, its
identifiers are duplicate-free, it splits into the entities referenced by
the id list followed by the unreferenced ones, and the unreferenced tail
is sorted alphabetically (case-insensitively) by display name. -/
theorem applyOrder_custom_permutation {T : Type} (items : List T)
    (getKey getName : T → String) (customIds : List String)
    (hn : (items.map getKey).Nodup) :
    (applyOrder items getKey getName .custom customIds).Perm items ∧
    ((applyOrder items getKey getName .custom customIds).map getKey).Nodup ∧
    applyOrder items getKey getName .custom customIds =
      (pickLoop customIds (mapFromItems getKey items)).1 ++
        sortByCmp (nameCmp getName)
          ((pickLoop customIds (mapFromItems getKey items)).2.map (·.2)) ∧
    (∀ x ∈ (pickLoop customIds (mapFromItems getKey items)).1,
      getKey x ∈ customIds) ∧
    (∀ x ∈ sortByCmp (nameCmp getName)
        ((pickLoop customIds (mapFromItems getKey items)).2.map (·.2)),
      getKey x ∉ customIds) ∧
    (sortByCmp (nameCmp getName)
        ((pickLoop customIds (mapFromItems getKey items)).2.map (·.2))).Pairwise
      (fun a b => strToLower (getName a) ≤ strToLower (getName b)) := by
  have hm0 : mapFromItems getKey items = items.map (fun it => (getKey it, it)) :=
    mapFromItems_eq_of_nodup getKey items hn
  have hkeys : ((mapFromItems getKey items).map (·.1)).Nodup := by
    rw [hm0, List.map_map]
    simpa [Function.comp] using hn
  have hkv : ∀ p ∈ mapFromItems getKey items, p.1 = getKey p.2 := by
    rw [hm0]
    intro p hp
    rcases List.mem_map.1 hp with ⟨it, -, rfl⟩
    rfl
  have hvals : (mapFromItems getKey items).map (·.2) = items := by
    rw [hm0, List.map_map]
    have hcomp : ((fun p : String × T => p.2) ∘ fun it => (getKey it, it)) = id := rfl
    rw [hcomp, List.map_id]
  set r := pickLoop customIds (mapFromItems getKey items) with hr
  have hpl := pickLoop_perm customIds (mapFromItems getKey items) hkeys
  rw [hvals] at hpl
  have hsortp : (sortByCmp (nameCmp getName) (r.2.map (·.2))).Perm
      (r.2.map (·.2)) := sortByCmp_perm _ _
  have hout : (applyOrder items getKey getName .custom customIds).Perm items :=
    applyOrder_custom_perm items getKey getName customIds hn
  refine ⟨hout, (hout.map getKey).nodup_iff.2 hn, rfl, ?_, ?_, ?_⟩
  · intro x hx
    exact pickLoop_picked_mem getKey customIds _ hkv hx
  · intro x hx
    have hx' : x ∈ r.2.map (·.2) := hsortp.mem_iff.1 hx
    rcases List.mem_map.1 hx' with ⟨p, hp, rfl⟩
    rcases pickLoop_rest_mem customIds _ hp with ⟨hpm, hpni⟩
    rw [← hkv p hpm]
    exact hpni
  · refine sortByCmp_pairwise ?_ ?_ ?_ _
    · intro a b c hab hbc
      exact le_trans hab hbc
    · intro a b hlt
      exact le_of_lt ((localeCmp_lt_iff _ _).1 hlt)
    · intro a b hnlt
      have := (not_iff_not.2 (localeCmp_lt_iff (getName a) (getName b))).1 hnlt
      exact le_of_not_lt this

/-- C2: the index mapping is the exact left inverse of slot placement.
For the devices view, the composer shows device `i`'s label at its
placement page/slot and `getDeviceIndexFromDevicesList`
(selectors.ts:217-237) recovers `i` from (page, slot).  For scenes, rooms
and favorites, the composer likewise shows entity `i`'s label at its
placement, and the page/slot arithmetic of `commitTap`
(app.ts:1367-1369, 1393-1395, 1429-1431) recovers `i` (for scenes/rooms
the tap router reads the raw collection's length, so unique entity ids are
assumed, which make the ordered collection the same size). -/
theorem index_mapping_left_inverse :
    (∀ st : AppState, ∀ i : Nat, i < (getOrderedDevices st).length →
      st.listPageIndex = devicePlacementPage (getOrderedDevices st).length i →
      (deviceNamesForListView st).get?
        (devicePlacementSlot (getOrderedDevices st).length i) =
        ((getOrderedDevices st).map (deviceLabel st)).get? i) ∧
    (∀ st : AppState, ∀ i : Nat, i < (getOrderedDevices st).length →
      getDeviceIndexFromDevicesList st
        (devicePlacementPage (getOrderedDevices st).length i)
        ((devicePlacementSlot (getOrderedDevices st).length i : Nat) : Int) = i) ∧
    (∀ st : AppState, ∀ i : Nat, i < (getOrderedScenes st).length →
      st.listPageIndex =
        pagedPlacementPage SCENES_PER_PAGE (getOrderedScenes st).length i →
      (sceneNamesForListView st).get?
        (pagedPlacementSlot SCENES_PER_PAGE (getOrderedScenes st).length i) =
        ((getOrderedScenes st).map (sceneLabel st)).get? i) ∧
    (∀ st : AppState, ∀ i : Nat, st.listView = .scenes →
      (st.scenes.map (·.sceneId)).Nodup → i < (getOrderedScenes st).length →
      commitTapSceneIndex st
        (pagedPlacementPage SCENES_PER_PAGE (getOrderedScenes st).length i)
        ((pagedPlacementSlot SCENES_PER_PAGE (getOrderedScenes st).length i : Nat) : Int)
        = i) ∧
    (∀ st : AppState, ∀ i : Nat, i < (getOrderedRooms st).length →
      st.listPageIndex =
        pagedPlacementPage ROOMS_PER_PAGE (getOrderedRooms st).length i →
      (roomNamesForListView st).get?
        (pagedPlacementSlot ROOMS_PER_PAGE (getOrderedRooms st).length i) =
        ((getOrderedRooms st).map (roomLabel st)).get? i) ∧
    (∀ st : AppState, ∀ i : Nat, st.listView = .rooms →
      (st.rooms.map (·.roomId)).Nodup → i < (getOrderedRooms st).length →
      commitTapRoomIndex st
        (pagedPlacementPage ROOMS_PER_PAGE (getOrderedRooms st).length i)
        ((pagedPlacementSlot ROOMS_PER_PAGE (getOrderedRooms st).length i : Nat) : Int)
        = i) ∧
    (∀ st : AppState, ∀ i : Nat, i < (getOrderedFavorites st).length →
      st.listPageIndex =
        pagedPlacementPage SCENES_PER_PAGE (getOrderedFavorites st).length i →
      (favoriteNamesForListView st).get?
        (pagedPlacementSlot SCENES_PER_PAGE (getOrderedFavorites st).length i) =
        ((getOrderedFavorites st).map (fun f => truncateName f.displayName)).get? i) ∧
    (∀ st : AppState, ∀ i : Nat, st.listView = .favorites →
      i < (getOrderedFavorites st).length →
      commitTapFavoriteIndex st
        (pagedPlacementPage SCENES_PER_PAGE (getOrderedFavorites st).length i)
        ((pagedPlacementSlot SCENES_PER_PAGE (getOrderedFavorites st).length i : Nat) : Int)
        = i) :=
  ⟨fun st i hi hp => deviceNames_get st i hi hp,
   fun st i hi => deviceIndex_inverse st i hi,
   fun st i hi hp => scenes_labels_at st i hi hp,
   fun st i hv hnd hi => scenes_router_inverse st i hv hnd hi,
   fun st i hi hp => rooms_labels_at st i hi hp,
   fun st i hv hnd hi => rooms_router_inverse st i hv hnd hi,
   fun st i hi hp => favorites_labels_at st i hi hp,
   fun st i hv hi => favorites_router_inverse st i hv hi⟩

/-- Witness for `index_mapping_left_inverse` at the concrete 25-device
state (device 20, page 1) and 20-scene / 20-favorite states (entity 19,
page 1). -/
theorem index_mapping_left_inverse_witness :
    ((deviceNamesForListView c2DevState).get?
        (devicePlacementSlot (getOrderedDevices c2DevState).length 20) =
      ((getOrderedDevices c2DevState).map (deviceLabel c2DevState)).get? 20) ∧
    (getDeviceIndexFromDevicesList c2DevState
        (devicePlacementPage (getOrderedDevices c2DevState).length 20)
        ((devicePlacementSlot (getOrderedDevices c2DevState).length 20 : Nat) : Int) = 20) ∧
    ((sceneNamesForListView c2SceneState).get?
        (pagedPlacementSlot SCENES_PER_PAGE (getOrderedScenes c2SceneState).length 19) =
      ((getOrderedScenes c2SceneState).map (sceneLabel c2SceneState)).get? 19) ∧
    (commitTapSceneIndex c2SceneState
        (pagedPlacementPage SCENES_PER_PAGE (getOrderedScenes c2SceneState).length 19)
        ((pagedPlacementSlot SCENES_PER_PAGE (getOrderedScenes c2SceneState).length 19 : Nat) : Int)
        = 19) ∧
    (commitTapFavoriteIndex c2FavState
        (pagedPlacementPage SCENES_PER_PAGE (getOrderedFavorites c2FavState).length 19)
        ((pagedPlacementSlot SCENES_PER_PAGE (getOrderedFavorites c2FavState).length 19 : Nat) : Int)
        = 19) :=
  ⟨index_mapping_left_inverse.1 c2DevState 20 (by decide) (by decide),
   index_mapping_left_inverse.2.1 c2DevState 20 (by decide),
   index_mapping_left_inverse.2.2.1 c2SceneState 19 (by decide) (by decide),
   index_mapping_left_inverse.2.2.2.1 c2SceneState 19 rfl (by decide) (by decide),
   index_mapping_left_inverse.2.2.2.2.2.2.2 c2FavState 19 rfl (by decide)⟩


/-- C9 counterexample: `NAV_ROOM` navigates to the devices screen (which is
neither device-detail nor device-dim) yet leaves a stale `selectedDeviceId`
in place (reducer.ts:32-41 has no `selectedDeviceId: null`). -/
theorem nav_selection_counterexample :
    (reduce c9State (.navRoom "room-1")).listView = .devices ∧
    ¬ ListView.devices = .deviceDetail ∧
    ¬ ListView.devices = .deviceDim ∧
    (reduce c9State (.navRoom "room-1")).selectedDeviceId = some "dev-1" := by
  decide

/-- C9 (amended): every navigation action resets the page index to 0;
`NAV_VIEW` clears the selected device for every target screen except
device-detail/device-dim, `NAV_ROOM_ALL` clears it, `NAV_DEVICE` and
`NAV_FAVORITE_DEVICE` set it (the latter also clears the selected room) —
but `NAV_ROOM` leaves the selected device id unchanged
(reducer.ts:16-70). -/
theorem nav_transitions (st : AppState) :
    (∀ v : ListView, (reduce st (.navView v)).listPageIndex = 0 ∧
      ((¬ v = .deviceDetail ∧ ¬ v = .deviceDim) →
        (reduce st (.navView v)).selectedDeviceId = none)) ∧
    (∀ rid : String, (reduce st (.navRoom rid)).listPageIndex = 0 ∧
      (reduce st (.navRoom rid)).selectedRoomId = some rid ∧
      (reduce st (.navRoom rid)).selectedDeviceId = st.selectedDeviceId) ∧
    (∀ did : String, (reduce st (.navDevice did)).listPageIndex = 0 ∧
      (reduce st (.navDevice did)).selectedDeviceId = some did) ∧
    (∀ did : String, (reduce st (.navFavoriteDevice did)).listPageIndex = 0 ∧
      (reduce st (.navFavoriteDevice did)).selectedDeviceId = some did ∧
      (reduce st (.navFavoriteDevice did)).selectedRoomId = none) ∧
    ((reduce st .navRoomAll).listPageIndex = 0 ∧
      (reduce st .navRoomAll).selectedDeviceId = none) := by
  refine ⟨?_, ?_, ?_, ?_, ?_⟩
  · intro v
    constructor
    · cases v <;> simp [reduce]
    · rintro ⟨h1, h2⟩
      cases v <;> simp [reduce] <;> simp_all
  · intro rid
    simp [reduce]
  · intro did
    simp [reduce]
  · intro did
    simp [reduce]
  · simp [reduce]

/-- Witness for `nav_transitions` on the concrete stale-selection state:
navigating to the scenes screen resets the page and clears the selection. -/
theorem nav_transitions_witness :
    (reduce c9State (.navView .scenes)).listPageIndex = 0 ∧
    (reduce c9State (.navView .scenes)).selectedDeviceId = none :=
  ⟨((nav_transitions c9State).1 .scenes).1,
   ((nav_transitions c9State).1 .scenes).2 (by decide)⟩

/-- C8 counterexample: an empty favorites collection renders two slots —
Back at slot 0 and the informational slot at slot 1 — not a single
informational slot occupying the Back position (composer.ts:368). -/
theorem empty_rendering_counterexample :
    favoriteNamesForListView c8FavEmptyState = [LABEL_BACK, "No favorites"] ∧
    (favoriteNamesForListView c8FavEmptyState).length = 2 ∧
    ¬ (favoriteNamesForListView c8FavEmptyState).get? 0 = some "No favorites" := by
  decide

/-- C8 (amended): on an empty collection, the scenes and rooms views render
a single informational slot at slot 0 (scenes render nothing at all while
still loading), while the devices and favorites views render Back at slot 0
followed by the informational slot; for empty favorites the labels are
exactly `["← Back", "No favorites"]` and the total page count is 1
(composer.ts:206-209, 240-244, 278-282, 368; 446-449). -/
theorem empty_collection_rendering :
    (∀ st : AppState, getOrderedScenes st = [] → ¬ st.status = .loading →
      sceneNamesForListView st = ["No scenes"]) ∧
    (∀ st : AppState, getOrderedScenes st = [] → st.status = .loading →
      sceneNamesForListView st = []) ∧
    (∀ st : AppState, getOrderedRooms st = [] → st.roomsStatus = .loading →
      roomNamesForListView st = ["Loading…"]) ∧
    (∀ st : AppState, getOrderedRooms st = [] → st.roomsStatus = .error →
      roomNamesForListView st = ["Failed to load rooms"]) ∧
    (∀ st : AppState, getOrderedRooms st = [] → ¬ st.roomsStatus = .loading →
      ¬ st.roomsStatus = .error → roomNamesForListView st = ["No rooms"]) ∧
    (∀ st : AppState, getOrderedDevices st = [] → st.devicesStatus = .loading →
      deviceNamesForListView st = [LABEL_BACK, "Loading…"]) ∧
    (∀ st : AppState, getOrderedDevices st = [] → st.devicesStatus = .error →
      deviceNamesForListView st = [LABEL_BACK, "Failed to load devices"]) ∧
    (∀ st : AppState, getOrderedDevices st = [] → ¬ st.devicesStatus = .loading →
      ¬ st.devicesStatus = .error →
      deviceNamesForListView st = [LABEL_BACK, "No devices"]) ∧
    (∀ st : AppState, getOrderedFavorites st = [] →
      favoriteNamesForListView st = [LABEL_BACK, "No favorites"]) ∧
    (∀ st : AppState, getOrderedFavorites st = [] → st.listView = .favorites →
      getTotalPages st = 1) := by
  refine ⟨?_, ?_, ?_, ?_, ?_, ?_, ?_, ?_, ?_, ?_⟩
  · intro st h hs
    simp [sceneNamesForListView, h, hs]
  · intro st h hs
    simp [sceneNamesForListView, h, hs]
  · intro st h hs
    simp [roomNamesForListView, h, hs]
  · intro st h hs
    simp [roomNamesForListView, h, hs]
  · intro st h h1 h2
    simp [roomNamesForListView, h, h1, h2]
  · intro st h hs
    simp [deviceNamesForListView, h, hs]
  · intro st h hs
    simp [deviceNamesForListView, h, hs]
  · intro st h h1 h2
    simp [deviceNamesForListView, h, h1, h2]
  · intro st h
    simp [favoriteNamesForListView, h]
  · intro st h hv
    simp [getTotalPages, hv, h]

/-- Witness for `empty_collection_rendering` on concrete empty favorites
and scenes states. -/
theorem empty_collection_rendering_witness :
    favoriteNamesForListView c8FavEmptyState = [LABEL_BACK, "No favorites"] ∧
    getTotalPages c8FavEmptyState = 1 ∧
    sceneNamesForListView c8SceneEmptyState = ["No scenes"] :=
  ⟨empty_collection_rendering.2.2.2.2.2.2.2.2.1 c8FavEmptyState (by decide),
   empty_collection_rendering.2.2.2.2.2.2.2.2.2 c8FavEmptyState (by decide) rfl,
   empty_collection_rendering.1 c8SceneEmptyState (by decide) (by decide)⟩

/-- C1 counterexample: on the concrete 25-device state, page 0 of the
devices view does not show Back, All, the first 17 devices and Next
(20 slots); `DEVICES_PER_PAGE` is 18, so the page holds 19 slots with only
15 devices. -/
theorem devices_scenario_counterexample :
    (getOrderedDevices c1State).length = 25 ∧
    c1State.listPageIndex = 0 ∧
    deviceNamesForListView c1State ≠
      [LABEL_BACK, LABEL_ALL] ++
        ((getOrderedDevices c1State).take 17).map (deviceLabel c1State) ++
        [LABEL_NEXT] ∧
    (deviceNamesForListView c1State).length = 19 := by decide

/-- C1 (amended): for a devices screen whose ordered collection has 25
entries, page 0 shows Back, All, devices 0–14, one empty padding slot and
Next (19 slots); page 1 shows Previous and devices 15–24 with no Next; the
page count is 2 (composer.ts:275-321, constants.ts `DEVICES_PER_PAGE = 18`). -/
theorem devices_25_pagination (st : AppState)
    (h : (getOrderedDevices st).length = 25) :
    (st.listPageIndex = 0 → deviceNamesForListView st =
      [LABEL_BACK, LABEL_ALL] ++
        ((getOrderedDevices st).take 15).map (deviceLabel st) ++
        ["", LABEL_NEXT]) ∧
    (st.listPageIndex = 1 → deviceNamesForListView st =
      LABEL_PREVIOUS :: ((getOrderedDevices st).drop 15).map (deviceLabel st)) ∧
    (st.listView = .devices → getTotalPages st = 2) := by
  refine ⟨fun hp => ?_, fun hp => ?_, fun hv => ?_⟩
  · unfold deviceNamesForListView
    simp only [h, hp, DEVICES_PER_PAGE, SCENES_PER_PAGE, LIST_MAX_ITEMS]
    norm_num
    rw [h]
    norm_num [List.replicate]
  · unfold deviceNamesForListView
    simp only [h, hp, DEVICES_PER_PAGE, SCENES_PER_PAGE, LIST_MAX_ITEMS]
    norm_num
    rw [h]
    norm_num
    exact le_of_eq h
  · simp only [getTotalPages, hv, h, DEVICES_PER_PAGE, SCENES_PER_PAGE, LIST_MAX_ITEMS]
    norm_num

/-- Witness for `devices_25_pagination` on the concrete 25-device state. -/
theorem devices_25_pagination_witness :
    deviceNamesForListView c1State =
      [LABEL_BACK, LABEL_ALL] ++
        ((getOrderedDevices c1State).take 15).map (deviceLabel c1State) ++
        ["", LABEL_NEXT] ∧
    getTotalPages c1State = 2 :=
  ⟨(devices_25_pagination c1State (by decide)).1 rfl,
   (devices_25_pagination c1State (by decide)).2.2 rfl⟩

/-- Witness for `applyOrder_custom_permutation` on a concrete 3-scene
collection and an id list with a duplicate and an unknown id. -/
theorem applyOrder_custom_permutation_witness :
    (applyOrder c3Items (·.sceneId) (·.sceneName) .custom c3Ids).Perm c3Items ∧
    ((applyOrder c3Items (·.sceneId) (·.sceneName) .custom c3Ids).map
      (·.sceneId)).Nodup :=
  let h := applyOrder_custom_permutation c3Items (·.sceneId) (·.sceneName)
    c3Ids (by decide)
  ⟨h.1, h.2.1⟩


theorem strTake_length (s : String) (n : Nat) :
    (strTake s n).length = min n s.length :=
  List.length_take n s.data

theorem truncateName_length (name fb : String) :
    (truncateName name fb).length ≤ LIST_ITEM_NAME_MAX_LEN := by
  unfold truncateName
  by_cases h : (strOr name fb).length ≤ LIST_ITEM_NAME_MAX_LEN
  · simp [h]
  · rw [if_neg h]
    have h1 : ("…" : String).length = 1 := by decide
    rw [String.length_append, strTake_length, h1]
    simp only [LIST_ITEM_NAME_MAX_LEN] at h ⊢
    omega

theorem getDisplayName_length (st : AppState) (id fb : String) :
    (getDisplayName st id fb).length ≤ LIST_ITEM_NAME_MAX_LEN := by
  unfold getDisplayName
  set n := strOr (strTrim (strOr ((renameLookup st.preferences.renames id).getD fb) fb)) fb
  by_cases h : n.length ≤ LIST_ITEM_NAME_MAX_LEN
  · simp [h]
  · rw [if_neg h]
    have h1 : ("…" : String).length = 1 := by decide
    rw [String.length_append, strTake_length, h1]
    simp only [LIST_ITEM_NAME_MAX_LEN] at h ⊢
    omega

theorem mem_pagedLabels (perPage : Nat) (names : List String) (p : Nat)
    {l : String} (hl : l ∈ pagedLabels perPage names p) :
    l ∈ names ∨ l = LABEL_BACK ∨ l = LABEL_PREVIOUS ∨ l = LABEL_NEXT ∨ l = "" := by
  simp only [pagedLabels] at hl
  have hTake : ∀ (c s : Nat) (x : String), x ∈ List.take c (List.drop s names) → x ∈ names :=
    fun c s x hx => List.mem_of_mem_drop (List.mem_of_mem_take hx)
  have hRep : ∀ (n : Nat) (x : String), x ∈ List.replicate n "" → x = "" :=
    fun n x hx => List.eq_of_mem_replicate hx
  split_ifs at hl <;>
    simp only [List.mem_cons, List.mem_append, List.mem_singleton,
      List.not_mem_nil, or_false] at hl <;>
    tauto

theorem mem_deviceNames (st : AppState) {l : String}
    (hl : l ∈ deviceNamesForListView st) :
    l ∈ (getOrderedDevices st).map (deviceLabel st) ∨ l = LABEL_BACK ∨
    l = LABEL_PREVIOUS ∨ l = LABEL_NEXT ∨ l = LABEL_ALL ∨ l = "" ∨
    l = "Loading…" ∨ l = "Failed to load devices" ∨ l = "No devices" := by
  have hTakeMap : ∀ (c : Nat) (x : String),
      x ∈ (List.take c (getOrderedDevices st)).map (deviceLabel st) →
      x ∈ (getOrderedDevices st).map (deviceLabel st) := by
    intro c x hx
    rcases List.mem_map.1 hx with ⟨d, hd, rfl⟩
    exact List.mem_map_of_mem _ (List.mem_of_mem_take hd)
  have hDropTakeMap : ∀ (c s : Nat) (x : String),
      x ∈ (List.take c (List.drop s (getOrderedDevices st))).map (deviceLabel st) →
      x ∈ (getOrderedDevices st).map (deviceLabel st) := by
    intro c s x hx
    rcases List.mem_map.1 hx with ⟨d, hd, rfl⟩
    exact List.mem_map_of_mem _ (List.mem_of_mem_drop (List.mem_of_mem_take hd))
  have hRep : ∀ (n : Nat) (x : String), x ∈ List.replicate n "" → x = "" :=
    fun n x hx => List.eq_of_mem_replicate hx
  simp only [deviceNamesForListView] at hl
  split_ifs at hl <;>
    simp only [List.mem_cons, List.mem_append, List.mem_singleton,
      List.not_mem_nil, or_false] at hl <;>
    tauto

theorem mem_dimLevelItemNames (st : AppState) {l : String}
    (hl : l ∈ dimLevelItemNames st) :
    l ∈ DIM_LEVELS.map toString ∨ l = LABEL_BACK ∨ l = LABEL_PREVIOUS ∨
    l = LABEL_NEXT ∨ l = "" := by
  have hDropTakeMap : ∀ (c s : Nat) (x : String),
      x ∈ (List.take c (List.drop s DIM_LEVELS)).map toString →
      x ∈ DIM_LEVELS.map toString := by
    intro c s x hx
    rcases List.mem_map.1 hx with ⟨d, hd, rfl⟩
    exact List.mem_map_of_mem _ (List.mem_of_mem_drop (List.mem_of_mem_take hd))
  have hRep : ∀ (n : Nat) (x : String), x ∈ List.replicate n "" → x = "" :=
    fun n x hx => List.eq_of_mem_replicate hx
  simp only [dimLevelItemNames] at hl
  split_ifs at hl <;>
    simp only [List.mem_cons, List.mem_append, List.mem_singleton,
      List.not_mem_nil, or_false] at hl <;>
    tauto

theorem mem_deviceDetailItemNames (st : AppState) {l : String}
    (hl : l ∈ deviceDetailItemNames st) :
    l = LABEL_BACK ∨ l = "On" ∨ l = "Off" ∨ l = "Dim" := by
  simp only [deviceDetailItemNames] at hl
  split_ifs at hl <;>
    simp only [List.mem_cons, List.mem_append, List.mem_singleton,
      List.not_mem_nil, or_false] at hl <;>
    tauto

theorem mem_roomAllDetailItemNames (st : AppState) {l : String}
    (hl : l ∈ roomAllDetailItemNames st) :
    l = LABEL_BACK ∨ l = "On" ∨ l = "Off" ∨ l = "Dim" := by
  simp only [roomAllDetailItemNames] at hl
  split_ifs at hl <;>
    simp only [List.mem_cons, List.mem_append, List.mem_singleton,
      List.not_mem_nil, or_false] at hl <;>
    tauto

/-- C10: every label in the composed visible list is at most
`LIST_ITEM_NAME_MAX_LEN` (64) characters, and a display name longer than
64 characters is truncated to its first 63 characters plus an ellipsis
(composer.ts:64-67, selectors.ts:9-18, constants.ts
`LIST_ITEM_NAME_MAX_LEN = 64`). -/
theorem visible_label_length_bound :
    (∀ st : AppState, ∀ l ∈ listItemNamesForState st,
      l.length ≤ LIST_ITEM_NAME_MAX_LEN) ∧
    (∀ name fb : String, LIST_ITEM_NAME_MAX_LEN < name.length →
      truncateName name fb = strTake name (LIST_ITEM_NAME_MAX_LEN - 1) ++ "…" ∧
      (truncateName name fb).length = LIST_ITEM_NAME_MAX_LEN) := by
  have hpaged : ∀ (perPage : Nat) (names : List String),
      (∀ x ∈ names, x.length ≤ LIST_ITEM_NAME_MAX_LEN) → ∀ (p : Nat) (x : String),
      x ∈ pagedLabels perPage names p → x.length ≤ LIST_ITEM_NAME_MAX_LEN := by
    intro perPage names hn p x hx
    rcases mem_pagedLabels perPage names p hx with h | rfl | rfl | rfl | rfl
    · exact hn x h
    all_goals decide
  constructor
  · intro st l hl
    cases hv : st.listView <;> simp only [listItemNamesForState, hv] at hl
    case main =>
      rcases List.mem_map.1 hl with ⟨it, -, rfl⟩
      cases it <;> decide
    case scenes =>
      simp only [sceneNamesForListView] at hl
      split_ifs at hl
      · simp at hl
      · simp only [List.mem_singleton] at hl
        subst hl
        decide
      · refine hpaged SCENES_PER_PAGE _ ?_ st.listPageIndex l hl
        intro x hx
        rcases List.mem_map.1 hx with ⟨s, -, rfl⟩
        exact truncateName_length _ _
    case rooms =>
      simp only [roomNamesForListView] at hl
      split_ifs at hl <;>
        first
        | (simp only [List.mem_singleton] at hl; subst hl; decide)
        | (refine hpaged ROOMS_PER_PAGE _ ?_ st.listPageIndex l hl
           intro x hx
           rcases List.mem_map.1 hx with ⟨r, -, rfl⟩
           exact truncateName_length _ _)
    case favorites =>
      simp only [favoriteNamesForListView] at hl
      split_ifs at hl
      · rcases List.mem_cons.1 hl with rfl | hl
        · decide
        · simp only [List.mem_singleton] at hl
          subst hl
          decide
      · refine hpaged SCENES_PER_PAGE _ ?_ st.listPageIndex l hl
        intro x hx
        rcases List.mem_map.1 hx with ⟨f, -, rfl⟩
        exact truncateName_length _ _
    case deviceDetail =>
      rcases mem_deviceDetailItemNames st hl with rfl | rfl | rfl | rfl <;> decide
    case roomAllDetail =>
      rcases mem_roomAllDetailItemNames st hl with rfl | rfl | rfl | rfl <;> decide
    case deviceDim =>
      rcases mem_dimLevelItemNames st hl with h | rfl | rfl | rfl | rfl
      · have hdim : ∀ x ∈ DIM_LEVELS.map toString,
            x.length ≤ LIST_ITEM_NAME_MAX_LEN := by decide
        exact hdim l h
      all_goals decide
    case roomAllDim =>
      rcases mem_dimLevelItemNames st hl with h | rfl | rfl | rfl | rfl
      · have hdim : ∀ x ∈ DIM_LEVELS.map toString,
            x.length ≤ LIST_ITEM_NAME_MAX_LEN := by decide
        exact hdim l h
      all_goals decide
    case devices =>
      rcases mem_deviceNames st hl with h | rfl | rfl | rfl | rfl | rfl | rfl | rfl | rfl
      · rcases List.mem_map.1 h with ⟨d, -, rfl⟩
        exact truncateName_length _ _
      all_goals decide
  · intro name fb h
    have hso : strOr name fb = name := by
      unfold strOr
      rw [if_neg]
      intro h0
      rw [h0] at h
      simp [LIST_ITEM_NAME_MAX_LEN] at h
    constructor
    · unfold truncateName
      rw [hso, if_neg (by omega)]
    · unfold truncateName
      rw [hso, if_neg (by omega), String.length_append, strTake_length]
      have h1 : ("…" : String).length = 1 := by decide
      rw [h1]
      simp only [LIST_ITEM_NAME_MAX_LEN] at h ⊢
      omega

/-- Witness for `visible_label_length_bound`: a concrete label of the
25-device state and a 65-character name. -/
theorem visible_label_length_bound_witness :
    (LABEL_BACK.length ≤ LIST_ITEM_NAME_MAX_LEN) ∧
    (truncateName (String.mk (List.replicate 65 'a')) "Scene").length =
      LIST_ITEM_NAME_MAX_LEN :=
  ⟨visible_label_length_bound.1 c1State LABEL_BACK (by decide),
   (visible_label_length_bound.2 (String.mk (List.replicate 65 'a')) "Scene"
     (by decide)).2⟩

end EvenST

namespace EvenST

theorem tapStep_lastTapTime (cfg : GestureConfig) (s : GestureSession)
    (li : Int) (taps : Nat) (now : Int) :
    (tapStep cfg s li taps now).lastTapTime = now := rfl

theorem tapStep_same_tapCount (cfg : GestureConfig) (s : GestureSession)
    (li : Int) (taps : Nat) (now : Int)
    (h : li = s.lastTapIndex ∧ now - s.lastTapTime ≤ cfg.tapWindowMs) :
    (tapStep cfg s li taps now).tapCount = min (s.tapCount + taps) 4 := by
  simp only [tapStep]
  rw [if_pos h]

theorem tapStep_same_lastTapIndex (cfg : GestureConfig) (s : GestureSession)
    (li : Int) (taps : Nat) (now : Int)
    (h : li = s.lastTapIndex ∧ now - s.lastTapTime ≤ cfg.tapWindowMs) :
    (tapStep cfg s li taps now).lastTapIndex = s.lastTapIndex := by
  simp only [tapStep]
  rw [if_pos h]

theorem tapStep_sched (cfg : GestureConfig) (s : GestureSession)
    (li : Int) (taps : Nat) (now : Int)
    (h : (li = s.lastTapIndex ∧ now - s.lastTapTime ≤ cfg.tapWindowMs) ∨ ¬ taps = 1) :
    (tapStep cfg s li taps now).pendingCommitAt = some (now + cfg.tapCommitMs) := by
  simp only [tapStep]
  rw [if_neg]
  rintro ⟨⟨hns, h1⟩, -⟩
  rcases h with hsame | hnot
  · exact hns hsame
  · exact hnot h1

theorem tapStep_idle (cfg : GestureConfig) (hsw : 0 ≤ cfg.scrollWindowMs)
    (li : Int) (hli : 0 ≤ li) (now : Int) :
    tapStep cfg idleSession li 1 now =
      { lastTapTime := now, lastTapIndex := li, tapCount := 1,
        recent := [(li, now)],
        pendingCommitAt := some (now + cfg.tapCommitMs) } := by
  have hns : ¬ (li = idleSession.lastTapIndex ∧
      now - idleSession.lastTapTime ≤ cfg.tapWindowMs) := by
    rintro ⟨h0, -⟩
    rw [show idleSession.lastTapIndex = -1 from rfl] at h0
    omega
  have hdw : (([] : List (Int × Int)) ++ [(li, now)]).dropWhile
      (fun e => e.2 < now - cfg.scrollWindowMs) = [(li, now)] := by
    simp [List.dropWhile_cons]
    omega
  have hf : ¬ (li = -1 ∧ now - 0 ≤ cfg.tapWindowMs) := by
    rintro ⟨h0, -⟩
    omega
  simp only [tapStep, idleSession]
  rw [hdw]
  simp [hf]
  intro h1 _
  omega

/-- C4: from an idle gesture session, three single taps at the same
position, each within the tap window of the previous one, accumulate
`tapCount` 1, 2, 3, each step (re)scheduling the commit timer at
`now + tapCommitMs`; when the commit fires on a paginated view, count 3
jumps to the last page when not already there, count 2 off page 0 goes to
the previous page, and count 1 performs the primary action at the tapped
position (app.ts:1517-1548, 1268-1304). -/
theorem gesture_accumulation (cfg : GestureConfig)
    (hsw : 0 ≤ cfg.scrollWindowMs) (p : Int) (hp : 0 ≤ p) (t1 t2 t3 : Int)
    (h12w : t2 - t1 ≤ cfg.tapWindowMs) (h23w : t3 - t2 ≤ cfg.tapWindowMs) :
    (tapStep cfg idleSession p 1 t1).tapCount = 1 ∧
    (tapStep cfg idleSession p 1 t1).pendingCommitAt =
      some (t1 + cfg.tapCommitMs) ∧
    (tapStep cfg (tapStep cfg idleSession p 1 t1) p 1 t2).tapCount = 2 ∧
    (tapStep cfg (tapStep cfg idleSession p 1 t1) p 1 t2).pendingCommitAt =
      some (t2 + cfg.tapCommitMs) ∧
    (tapStep cfg (tapStep cfg (tapStep cfg idleSession p 1 t1) p 1 t2)
      p 1 t3).tapCount = 3 ∧
    (tapStep cfg (tapStep cfg (tapStep cfg idleSession p 1 t1) p 1 t2)
      p 1 t3).pendingCommitAt = some (t3 + cfg.tapCommitMs) ∧
    (∀ (view : ListView) (page totalPages : Nat) (li : Int),
      isPaginatedList view = true →
      (¬ page = totalPages - 1 →
        commitDispatch view page totalPages li 3 = .jumpLast (totalPages - 1)) ∧
      (¬ page = 0 → commitDispatch view page totalPages li 2 = .pagePrev) ∧
      commitDispatch view page totalPages li 1 = .primary li) := by
  have hs1 := tapStep_idle cfg hsw p hp t1
  have hS1i : (tapStep cfg idleSession p 1 t1).lastTapIndex = p := by rw [hs1]
  have hS1t : (tapStep cfg idleSession p 1 t1).lastTapTime = t1 := by rw [hs1]
  have hS1c : (tapStep cfg idleSession p 1 t1).tapCount = 1 := by rw [hs1]
  have hS1p : (tapStep cfg idleSession p 1 t1).pendingCommitAt =
      some (t1 + cfg.tapCommitMs) := by rw [hs1]
  have hsame2 : p = (tapStep cfg idleSession p 1 t1).lastTapIndex ∧
      t2 - (tapStep cfg idleSession p 1 t1).lastTapTime ≤ cfg.tapWindowMs := by
    rw [hS1i, hS1t]
    exact ⟨rfl, h12w⟩
  have hS2c : (tapStep cfg (tapStep cfg idleSession p 1 t1) p 1 t2).tapCount = 2 := by
    rw [tapStep_same_tapCount _ _ _ _ _ hsame2, hS1c]
    decide
  have hS2i : (tapStep cfg (tapStep cfg idleSession p 1 t1) p 1 t2).lastTapIndex = p := by
    rw [tapStep_same_lastTapIndex _ _ _ _ _ hsame2, hS1i]
  have hS2t : (tapStep cfg (tapStep cfg idleSession p 1 t1) p 1 t2).lastTapTime = t2 :=
    tapStep_lastTapTime _ _ _ _ _
  have hS2p := tapStep_sched cfg (tapStep cfg idleSession p 1 t1) p 1 t2 (.inl hsame2)
  have hsame3 : p = (tapStep cfg (tapStep cfg idleSession p 1 t1) p 1 t2).lastTapIndex ∧
      t3 - (tapStep cfg (tapStep cfg idleSession p 1 t1) p 1 t2).lastTapTime ≤
        cfg.tapWindowMs := by
    rw [hS2i, hS2t]
    exact ⟨rfl, h23w⟩
  have hS3c : (tapStep cfg (tapStep cfg (tapStep cfg idleSession p 1 t1) p 1 t2)
      p 1 t3).tapCount = 3 := by
    rw [tapStep_same_tapCount _ _ _ _ _ hsame3, hS2c]
    decide
  have hS3p := tapStep_sched cfg _ p 1 t3 (.inl hsame3)
  refine ⟨hS1c, hS1p, hS2c, hS2p, hS3c, hS3p, ?_⟩
  intro view page totalPages li hpag
  refine ⟨?_, ?_, ?_⟩
  · intro hnl
    simp [commitDispatch, hpag, hnl]
  · intro hn0
    simp [commitDispatch, hpag, hn0]
  · simp [commitDispatch, hpag]

/-- Witness for `gesture_accumulation`: simulator timings, position 2,
taps at times 0, 100, 200. -/
theorem gesture_accumulation_witness :
    (tapStep (gestureConfig false) (tapStep (gestureConfig false)
      (tapStep (gestureConfig false) idleSession 2 1 0) 2 1 100) 2 1 200).tapCount = 3 ∧
    (tapStep (gestureConfig false) (tapStep (gestureConfig false)
      (tapStep (gestureConfig false) idleSession 2 1 0) 2 1 100) 2 1 200).pendingCommitAt =
      some 650 ∧
    commitDispatch .scenes 0 3 2 3 = .jumpLast 2 ∧
    commitDispatch .scenes 1 3 2 2 = .pagePrev ∧
    commitDispatch .scenes 0 3 2 1 = .primary 2 := by
  have h := gesture_accumulation (gestureConfig false) (by decide) 2 (by decide)
    0 100 200 (by decide) (by decide)
  refine ⟨h.2.2.2.2.1, ?_, (h.2.2.2.2.2.2 .scenes 0 3 2 rfl).1 (by decide),
    (h.2.2.2.2.2.2 .scenes 1 3 2 rfl).2.1 (by decide),
    (h.2.2.2.2.2.2 .scenes 0 3 2 rfl).2.2⟩
  have hp := h.2.2.2.2.2.1
  rw [hp]
  rfl

theorem mem_of_mem_dropWhile {α : Type} {p : α → Bool} {l : List α} {x : α}
    (h : x ∈ l.dropWhile p) : x ∈ l := by
  induction l with
  | nil => simpa [List.dropWhile] using h
  | cons a t ih =>
    rw [List.dropWhile_cons] at h
    by_cases hpa : p a = true
    · rw [if_pos hpa] at h
      exact List.mem_cons_of_mem _ (ih h)
    · rw [if_neg hpa] at h
      exact h

theorem mem_dropWhile_of_mem {α : Type} {p : α → Bool} {l : List α} {x : α}
    (hx : x ∈ l) (hpx : p x = false) : x ∈ l.dropWhile p := by
  induction l with
  | nil => exact absurd hx (List.not_mem_nil x)
  | cons a t ih =>
    rw [List.dropWhile_cons]
    rcases List.mem_cons.1 hx with rfl | hxt
    · rw [if_neg (by simp [hpx])]
      exact List.mem_cons_self _ _
    · by_cases hpa : p a = true
      · rw [if_pos hpa]
        exact ih hxt
      · rw [if_neg hpa]
        exact List.mem_cons_of_mem _ hxt

theorem two_mem_le_length {α : Type} {l : List α} {a b : α}
    (ha : a ∈ l) (hb : b ∈ l) (hne : a ≠ b) : 2 ≤ l.length := by
  match l with
  | [] => exact absurd ha (List.not_mem_nil a)
  | [x] =>
    rw [List.mem_singleton] at ha hb
    exact absurd (ha.trans hb.symm) hne
  | x :: y :: t =>
    simp only [List.length_cons]
    omega

theorem tapStep_scroll (cfg : GestureConfig) (hsw : 0 ≤ cfg.scrollWindowMs)
    {s : GestureSession} {pos time pos' time' : Int}
    (hIi : s.lastTapIndex = pos) (hIt : s.lastTapTime = time)
    (hIm : (pos, time) ∈ s.recent) (hIb : ∀ e ∈ s.recent, e.2 ≤ time)
    (hlt : pos < pos') (hle : time ≤ time')
    (hgap : time' - time ≤ cfg.scrollWindowMs) :
    (tapStep cfg s pos' 1 time').pendingCommitAt = none ∧
    (tapStep cfg s pos' 1 time').lastTapIndex = pos' ∧
    (tapStep cfg s pos' 1 time').lastTapTime = time' ∧
    (pos', time') ∈ (tapStep cfg s pos' 1 time').recent ∧
    ∀ e ∈ (tapStep cfg s pos' 1 time').recent, e.2 ≤ time' := by
  have hnsame : ¬ (pos' = s.lastTapIndex ∧
      time' - s.lastTapTime ≤ cfg.tapWindowMs) := by
    rintro ⟨h0, -⟩
    rw [hIi] at h0
    omega
  have hm1 : (pos, time) ∈ (s.recent ++ [(pos', time')]).dropWhile
      (fun e => decide (e.2 < time' - cfg.scrollWindowMs)) := by
    refine mem_dropWhile_of_mem (List.mem_append_left _ hIm) ?_
    simp only [decide_eq_false_iff_not, not_lt]
    omega
  have hm2 : (pos', time') ∈ (s.recent ++ [(pos', time')]).dropWhile
      (fun e => decide (e.2 < time' - cfg.scrollWindowMs)) := by
    refine mem_dropWhile_of_mem (List.mem_append_right _ (List.mem_singleton_self _)) ?_
    simp only [decide_eq_false_iff_not, not_lt]
    omega
  have hlik : 2 ≤ (((s.recent ++ [(pos', time')]).dropWhile
      (fun e => decide (e.2 < time' - cfg.scrollWindowMs))).map
      (fun e => e.1)).dedup.length := by
    refine two_mem_le_length (a := pos) (b := pos')
      (List.mem_dedup.2 (List.mem_map_of_mem _ hm1))
      (List.mem_dedup.2 (List.mem_map_of_mem _ hm2)) ?_
    intro hE
    omega
  refine ⟨?_, ?_, rfl, ?_, ?_⟩
  · simp only [tapStep]
    split
    · rfl
    · rename_i hcond
      exact absurd ⟨⟨hnsame, trivial⟩, hlik⟩ hcond
  · simp only [tapStep]
    rw [if_neg hnsame]
  · simp only [tapStep]
    exact hm2
  · simp only [tapStep]
    intro e he
    rcases List.mem_append.1 (mem_of_mem_dropWhile he) with h1 | h1
    · have := hIb e h1
      omega
    · rw [List.mem_singleton] at h1
      subst h1
      omega

theorem scroll_fold_none (cfg : GestureConfig) (hsw : 0 ≤ cfg.scrollWindowMs) :
    ∀ (rest : List (Int × Int)) (s : GestureSession) (pos time : Int),
    s.lastTapIndex = pos → s.lastTapTime = time → (pos, time) ∈ s.recent →
    (∀ e ∈ s.recent, e.2 ≤ time) →
    List.Chain (scrollChain cfg.scrollWindowMs) (pos, time) rest →
    ∀ k, 1 ≤ k → k ≤ rest.length →
    (foldTaps cfg s (rest.take k)).pendingCommitAt = none := by
  intro rest
  induction rest with
  | nil =>
    intro s pos time _ _ _ _ _ k hk1 hk2
    simp only [List.length_nil] at hk2
    omega
  | cons e rest2 ih =>
    intro s pos time hIi hIt hIm hIb hchain k hk1 hk2
    obtain ⟨p2, t2⟩ := e
    rcases List.chain_cons.1 hchain with ⟨hrel, hchain2⟩
    have hrel2 : pos < p2 ∧ time ≤ t2 ∧ t2 - time ≤ cfg.scrollWindowMs := hrel
    obtain ⟨hlt, hle, hgap⟩ := hrel2
    obtain ⟨k2, rfl⟩ : ∃ k2, k = k2 + 1 := ⟨k - 1, by omega⟩
    rw [List.take_succ_cons]
    have hstep := tapStep_scroll cfg hsw hIi hIt hIm hIb hlt hle hgap
    have hfold : foldTaps cfg s ((p2, t2) :: rest2.take k2) =
        foldTaps cfg (tapStep cfg s p2 1 t2) (rest2.take k2) := rfl
    rw [hfold]
    rcases Nat.eq_zero_or_pos k2 with hk0 | hkpos
    · subst hk0
      simpa [foldTaps] using hstep.1
    · refine ih (tapStep cfg s p2 1 t2) p2 t2 hstep.2.1 hstep.2.2.1
        hstep.2.2.2.1 hstep.2.2.2.2 hchain2 k2 hkpos ?_
      simp only [List.length_cons] at hk2
      omega

/-- C5: for a sequence of single taps at strictly increasing positions,
each within the scroll window of the previous one, the first tap schedules
a commit, every later event arrives before the pending commit would fire
(the scroll window is shorter than the commit delay) and replaces it with
none, so no commit is ever produced while scrolling; a same-position
repeat, or any non-single tap such as a hardware double-tap, always
schedules a commit (app.ts:1517-1548). -/
theorem scroll_suppression (cfg : GestureConfig)
    (hsw : 0 ≤ cfg.scrollWindowMs) (hcw : cfg.scrollWindowMs < cfg.tapCommitMs)
    (p1 t1 : Int) (hp1 : 0 ≤ p1) (rest : List (Int × Int))
    (hchain : List.Chain (scrollChain cfg.scrollWindowMs) (p1, t1) rest) :
    (foldTaps cfg idleSession [(p1, t1)]).pendingCommitAt =
      some (t1 + cfg.tapCommitMs) ∧
    List.Chain (fun a b : Int × Int => b.2 < a.2 + cfg.tapCommitMs) (p1, t1) rest ∧
    (∀ k, 1 ≤ k → k ≤ rest.length →
      (foldTaps cfg idleSession ((p1, t1) :: rest.take k)).pendingCommitAt = none) ∧
    (∀ (s : GestureSession) (li : Int) (taps : Nat) (now : Int),
      (li = s.lastTapIndex ∧ now - s.lastTapTime ≤ cfg.tapWindowMs) ∨ ¬ taps = 1 →
      (tapStep cfg s li taps now).pendingCommitAt = some (now + cfg.tapCommitMs)) := by
  have h1 := tapStep_idle cfg hsw p1 hp1 t1
  refine ⟨?_, ?_, ?_, ?_⟩
  · show (tapStep cfg idleSession p1 1 t1).pendingCommitAt = _
    rw [h1]
  · refine hchain.imp (fun a b hab => ?_)
    have hab2 : a.1 < b.1 ∧ a.2 ≤ b.2 ∧ b.2 - a.2 ≤ cfg.scrollWindowMs := hab
    omega
  · intro k hk1 hk2
    show (foldTaps cfg (tapStep cfg idleSession p1 1 t1) (rest.take k)).pendingCommitAt = none
    rw [h1]
    refine scroll_fold_none cfg hsw rest _ p1 t1 rfl rfl (List.mem_singleton_self _)
      ?_ hchain k hk1 hk2
    intro e he
    rw [List.mem_singleton] at he
    subst he
    omega
  · exact fun s li taps now h => tapStep_sched cfg s li taps now h

/-- Witness for `scroll_suppression`: simulator timings, taps at
positions 0, 1, 2 at times 0, 100, 200. -/
theorem scroll_suppression_witness :
    (foldTaps (gestureConfig false) idleSession [(0, 0)]).pendingCommitAt = some 450 ∧
    (foldTaps (gestureConfig false) idleSession
      [(0, 0), (1, 100), (2, 200)]).pendingCommitAt = none := by
  have h := scroll_suppression (gestureConfig false) (by decide) (by decide) 0 0
    (by decide) [(1, 100), (2, 200)]
    (List.Chain.cons (by decide) (List.Chain.cons (by decide) List.Chain.nil))
  exact ⟨h.1, h.2.2.1 2 (by decide) (by decide)⟩

/-- C6 counterexample: a list event carrying an unrecognized non-scroll
event type (such as 99) is not dropped: for every choice of SDK enum
codes it maps to a single-tap command, contradicting the claim that only
recognized click and double-click events yield a tap command
(actions.ts:40-45). -/
theorem event_mapper_counterexample :
    ¬ (∀ (codes : OsEventCodes) (le : ListEventPayload) (idx : Int),
        ¬ le.eventType = none →
        ¬ le.eventType = some 3 →
        ¬ le.eventType = some codes.click →
        ¬ le.eventType = some codes.doubleClick →
        ¬ le.eventType = some codes.scrollTop →
        ¬ le.eventType = some codes.scrollBottom →
        mapEvenHubEvent codes { listEvent := some le } idx = none) := by
  intro h
  have hc := h ⟨1, 4, 5, 6⟩ ⟨some 99, some 7⟩ 0 (by decide) (by decide)
    (by decide) (by decide) (by decide) (by decide)
  exact absurd hc (by decide)

/-- C6 (amended): an event with neither a sysEvent double-tap nor a list
event yields no action; scroll-top and scroll-bottom list events yield no
action; raw event type 3 or the double-click code yields a double-tap
command; the click code or a missing event type yields a single-tap
command; a sysEvent with event type 3 yields a double-tap command at the
focused index; and any other unrecognized non-scroll list event type also
yields a single-tap command rather than none (actions.ts:8-52). -/
theorem event_mapper_behavior (codes : OsEventCodes) (idx : Int)
    (le : ListEventPayload) (r : Option Nat) :
    (∀ fi : Int, mapEvenHubEvent codes ⟨none, none⟩ fi = none) ∧
    (¬ r = some 3 → mapEvenHubEvent codes ⟨some r, none⟩ idx = none) ∧
    (∀ (ev : EvenHubEvent) (fi : Int), ev.sysEventType = some (some 3) →
      mapEvenHubEvent codes ev fi = some (.tap fi (some 2))) ∧
    ((le.eventType = some codes.scrollTop ∨ le.eventType = some codes.scrollBottom) →
      ¬ le.eventType = some 3 → ¬ le.eventType = some codes.doubleClick →
      ¬ le.eventType = some codes.click →
      mapEvenHubEvent codes ⟨none, some le⟩ idx = none) ∧
    ((le.eventType = some 3 ∨ le.eventType = some codes.doubleClick) →
      mapEvenHubEvent codes ⟨none, some le⟩ idx =
        some (.tap (le.currentSelectItemIndex.getD 0) (some 2))) ∧
    ((le.eventType = some codes.click ∨ le.eventType = none) →
      ¬ le.eventType = some 3 → ¬ le.eventType = some codes.doubleClick →
      mapEvenHubEvent codes ⟨none, some le⟩ idx =
        some (.tap (le.currentSelectItemIndex.getD 0) (some 1))) ∧
    (¬ le.eventType = none → ¬ le.eventType = some 3 →
      ¬ le.eventType = some codes.doubleClick → ¬ le.eventType = some codes.click →
      ¬ le.eventType = some codes.scrollTop → ¬ le.eventType = some codes.scrollBottom →
      mapEvenHubEvent codes ⟨none, some le⟩ idx =
        some (.tap (le.currentSelectItemIndex.getD 0) (some 1))) := by
  refine ⟨?_, ?_, ?_, ?_, ?_, ?_, ?_⟩
  · intro fi
    simp [mapEvenHubEvent, mapListEvent]
  · intro hr
    simp [mapEvenHubEvent, mapListEvent, hr]
  · intro ev fi h
    obtain ⟨st, lev⟩ := ev
    simp only at h
    subst h
    simp [mapEvenHubEvent]
  · intro hs h3 hdc hcl
    have hA : ¬ (le.eventType = some 3 ∨ le.eventType = some codes.doubleClick) := by
      rintro (h | h)
      · exact h3 h
      · exact hdc h
    have hB : ¬ (le.eventType = some codes.click ∨ le.eventType = none) := by
      rintro (h | h)
      · exact hcl h
      · rcases hs with hsc | hsc <;> rw [h] at hsc <;> exact Option.noConfusion hsc
    have hC : ¬ (¬ le.eventType = some codes.scrollTop ∧
        ¬ le.eventType = some codes.scrollBottom) := by
      rintro ⟨hst, hsb⟩
      rcases hs with hsc | hsc
      · exact hst hsc
      · exact hsb hsc
    simp only [mapEvenHubEvent, mapListEvent]
    rw [if_neg hA, if_neg hB, if_neg hC]
  · intro hd
    simp only [mapEvenHubEvent, mapListEvent]
    rw [if_pos hd]
  · intro hc h3 hdc
    have hA : ¬ (le.eventType = some 3 ∨ le.eventType = some codes.doubleClick) := by
      rintro (h | h)
      · exact h3 h
      · exact hdc h
    simp only [mapEvenHubEvent, mapListEvent]
    rw [if_neg hA, if_pos hc]
  · intro hn h3 hdc hcl hst hsb
    have hA : ¬ (le.eventType = some 3 ∨ le.eventType = some codes.doubleClick) := by
      rintro (h | h)
      · exact h3 h
      · exact hdc h
    have hB : ¬ (le.eventType = some codes.click ∨ le.eventType = none) := by
      rintro (h | h)
      · exact hcl h
      · exact hn h
    simp only [mapEvenHubEvent, mapListEvent]
    rw [if_neg hA, if_neg hB, if_pos ⟨hst, hsb⟩]

/-- Witness for `event_mapper_behavior` with codes 1, 4, 5, 6: all seven
branches at concrete events. -/
theorem event_mapper_behavior_witness :
    mapEvenHubEvent ⟨1, 4, 5, 6⟩ ⟨none, some ⟨some 99, some 2⟩⟩ 7 =
      some (.tap 2 (some 1)) ∧
    mapEvenHubEvent ⟨1, 4, 5, 6⟩ ⟨some (some 3), none⟩ 7 = some (.tap 7 (some 2)) ∧
    mapEvenHubEvent ⟨1, 4, 5, 6⟩ ⟨none, some ⟨some 5, some 2⟩⟩ 7 = none ∧
    mapEvenHubEvent ⟨1, 4, 5, 6⟩ ⟨none, some ⟨some 4, some 2⟩⟩ 7 =
      some (.tap 2 (some 2)) ∧
    mapEvenHubEvent ⟨1, 4, 5, 6⟩ ⟨none, some ⟨some 1, some 2⟩⟩ 7 =
      some (.tap 2 (some 1)) ∧
    mapEvenHubEvent ⟨1, 4, 5, 6⟩ ⟨some (some 7), none⟩ 7 = none ∧
    mapEvenHubEvent ⟨1, 4, 5, 6⟩ ⟨none, none⟩ 7 = none := by
  have h99 := event_mapper_behavior ⟨1, 4, 5, 6⟩ 7 ⟨some 99, some 2⟩ (some 7)
  have h5 := event_mapper_behavior ⟨1, 4, 5, 6⟩ 7 ⟨some 5, some 2⟩ (some 7)
  have h4 := event_mapper_behavior ⟨1, 4, 5, 6⟩ 7 ⟨some 4, some 2⟩ (some 7)
  have h1 := event_mapper_behavior ⟨1, 4, 5, 6⟩ 7 ⟨some 1, some 2⟩ (some 7)
  exact ⟨h99.2.2.2.2.2.2 (by decide) (by decide) (by decide) (by decide)
      (by decide) (by decide),
    h99.2.2.1 ⟨some (some 3), none⟩ 7 rfl,
    h5.2.2.2.1 (Or.inl rfl) (by decide) (by decide) (by decide),
    h4.2.2.2.2.1 (Or.inr rfl),
    h1.2.2.2.2.2.1 (Or.inl rfl) (by decide) (by decide),
    h99.2.1 (by decide),
    h99.1 7⟩

end EvenST
